import Mathlib

/-!
Verification model of the modmail support bot in src/support.py.

The bot keeps four global mutable dictionaries (active_tickets,
blacklisted_users, ticket_logs, user_welcome_timestamps); these are modelled
as a `StoreState` record whose maps are association lists, which preserve
Python-dict insertion order (needed because several routines iterate the
dicts in order).  Every operation of the source is a pure function from a
state, an explicit clock value `now` (modelling discord.utils.utcnow()), and
a fault-injection record saying which external transport calls raise, to a
new state plus a trace of completed transport effects.  Timestamps are
seconds as naturals.
-/

namespace Modmail

/-! ## Configuration constants (the CONFIG table of src/support.py) -/

def TICKET_LIMIT_PER_USER : Nat := 1

def WELCOME_MESSAGE_COOLDOWN : Nat := 300

def AUTO_CLOSE_TIME : Nat := 48

def ANONYMOUS_REPLIES : Bool := false

/-! ## Association lists modelling Python dicts

`alookup` is `d.get(k)`, `aupdate` is `d[k] = v` (replace in place if the key
exists, append at the end otherwise, matching dict insertion-order
semantics), `aerase` is `del d[k]`. -/

def alookup {α : Type} : List (Nat × α) → Nat → Option α
  | [], _ => none
  | (k', v) :: rest, k => if k' = k then some v else alookup rest k

def aupdate {α : Type} : List (Nat × α) → Nat → α → List (Nat × α)
  | [], k, v => [(k, v)]
  | (k', v') :: rest, k, v =>
      if k' = k then (k, v) :: rest else (k', v') :: aupdate rest k v

def aerase {α : Type} : List (Nat × α) → Nat → List (Nat × α)
  | [], _ => []
  | (k', v') :: rest, k =>
      if k' = k then aerase rest k else (k', v') :: aerase rest k

def keysNodup {α : Type} (l : List (Nat × α)) : Prop :=
  (l.map Prod.fst).Nodup

/-! ## Data model -/

/-- One entry of a ticket's `messages` list (see the dicts appended in
forward_to_channel, the staff branch of on_message, and the reply modal). -/
structure Message where
  author_id : Nat
  content : String
  timestamp : Nat
  attachments : List String
  channel_msg_id : Option Nat
  user_msg_id : Option Nat
deriving Repr, DecidableEq

/-- One ticket record of `active_tickets[user_id][channel_id]`.  The live
channel object reference is modelled by the channel's name, the only part of
it the store-level code reads. -/
structure Ticket where
  channel_name : String
  category : String
  created_at : Nat
  last_activity : Nat
  messages : List Message
  closed : Bool
  staff_typing : Bool
  user_typing : Bool
deriving Repr, DecidableEq

/-- One summary record appended to `ticket_logs[str(user_id)]` at close time. -/
structure ClosedRecord where
  channel_name : String
  category : String
  created_at : Nat
  closed_at : Nat
  closed_by : String
  message_count : Nat
deriving Repr, DecidableEq

/-- The four global mutable dictionaries of src/support.py. -/
structure StoreState where
  active_tickets : List (Nat × List (Nat × Ticket))
  blacklisted_users : List Nat
  ticket_logs : List (Nat × List ClosedRecord)
  user_welcome_timestamps : List (Nat × Nat)
deriving Repr, DecidableEq

def initialState : StoreState := ⟨[], [], [], []⟩

/-- `active_tickets.get(user_id, {})` - the user's active-ticket dict. -/
def userTickets (s : StoreState) (u : Nat) : List (Nat × Ticket) :=
  (alookup s.active_tickets u).getD []

/-- Completed external transport interactions, in program order. -/
inductive Effect where
  | channelSend (channel : Nat) (text : String)
  | userSend (user : Nat) (text : String)
  | userSendFile (user : Nat) (text : String)
  | madeTranscript (channel : Nat) (text : String)
  | pinMessage (channel : Nat)
  | addReaction (target : Nat) (emoji : String)
  | logAction (text : String)
  | interactionReply (text : String)
  | errorNotice (target : Nat) (text : String)
  | deleteChannel (channel : Nat)
  | sendWelcome (user : Nat)
deriving Repr, DecidableEq

/-! ## Transcript builder (create_transcript, lines 356-398)

`create_transcript` reads the raw channel history, so its input is a list of
platform messages, not the store's `messages` list.  The strftime timestamp
rendering is modelled by `toString` on the seconds value; it is injective on
distinct times just as the second-resolution strftime output is. -/

structure EmbedData where
  description : Option String
  fields : List (String × String)
deriving Repr, DecidableEq

structure RawMessage where
  authorName : String
  authorIsBot : Bool
  authorIsStaff : Bool
  pinned : Bool
  created_at : Nat
  content : String
  embeds : List EmbedData
  attachments : List (String × String)
deriving Repr, DecidableEq

def renderTimestamp (t : Nat) : String := toString t

/-- The loop body of create_transcript: header line, content, embed text,
attachment references, blank separator. -/
def renderMessage (m : RawMessage) : String :=
  let author := if m.authorIsStaff then m.authorName ++ " (Staff)" else m.authorName
  let base := "[" ++ renderTimestamp m.created_at ++ "] " ++ author ++ ":\n"
  let withContent := if m.content = "" then base else base ++ m.content ++ "\n"
  let withEmbeds := m.embeds.foldl (fun acc e =>
    let d := match e.description with
      | some d => acc ++ d ++ "\n"
      | none => acc
    e.fields.foldl (fun acc2 fld => acc2 ++ fld.1 ++ ": " ++ fld.2 ++ "\n") d) withContent
  let withAtts :=
    if m.attachments.isEmpty then withEmbeds
    else m.attachments.foldl (fun acc a => acc ++ "- " ++ a.1 ++ " (" ++ a.2 ++ ")\n")
      (withEmbeds ++ "Attachments:\n")
  withAtts ++ "\n"

/-- The skip condition of create_transcript: bot author, has embeds, pinned
(the pinned control/summary message). -/
def skipMessage (m : RawMessage) : Bool :=
  m.authorIsBot && !m.embeds.isEmpty && m.pinned

/-- The three header metadata lines plus separator.  Note the third line
renders the time of invocation (discord.utils.utcnow()), not a ticket
attribute. -/
def transcriptHeader (channelName userName : String) (userId now : Nat) : String :=
  "Transcript for ticket: " ++ channelName ++ "\n"
    ++ "User: " ++ userName ++ " (ID: " ++ toString userId ++ ")\n"
    ++ "Created at: " ++ renderTimestamp now ++ "\n"
    ++ String.mk (List.replicate 50 '-') ++ "\n\n"

/-- Rendering of the message history alone, skipping the pinned control
message. -/
def transcriptBody (msgs : List RawMessage) : String :=
  msgs.foldl (fun acc m => if skipMessage m then acc else acc ++ renderMessage m) ""

/-- create_transcript (lines 356-398): builds the header incrementally, then
appends one rendered block per non-skipped history message. -/
def create_transcript (channelName userName : String) (userId now : Nat)
    (msgs : List RawMessage) : String :=
  msgs.foldl (fun acc m => if skipMessage m then acc else acc ++ renderMessage m)
    (transcriptHeader channelName userName userId now)

/-! ## Ticket creation (create_ticket, lines 87-267) -/

/-- Which of the four user-visible outcomes create_ticket returns.  The
constructors stand for the four returned strings: the limit message (line
91), the blacklist message (line 95), the except-branch message
"An error occurred while creating your ticket..." (line 267), and the
success message (line 263). -/
inductive CreateResult where
  | limitExceeded
  | blacklisted
  | transportError
  | success
deriving Repr, DecidableEq

/-- Fault injection for create_ticket's transport calls, in program order:
category/channel creation (before the store insert), the pinned control
message, the user confirmation DM, the audit log entry (all after the store
insert).  A raised call jumps to the except handler at line 265. -/
structure CreateFaults where
  channelCreate : Bool
  controlMessage : Bool
  userConfirm : Bool
  auditLog : Bool
deriving Repr, DecidableEq

def CreateFaults.none' : CreateFaults := ⟨false, false, false, false⟩

/-- The fresh ticket dict of lines 132-141. -/
def new_ticket (channel_name category_name : String) (now : Nat) : Ticket :=
  { channel_name := channel_name, category := category_name,
    created_at := now, last_activity := now, messages := [],
    closed := false, staff_typing := false, user_typing := false }

/-- create_ticket: limit check (line 90), blacklist check (line 94), channel
creation, store insert (lines 129-141), control message + pin, confirmation
DM, audit log.  Any exception after the insert is caught at line 265 and the
store insert is NOT undone. -/
def create_ticket (s : StoreState) (user : Nat) (category_name : String)
    (channel : Nat) (channel_name : String) (now : Nat) (f : CreateFaults) :
    StoreState × CreateResult × List Effect :=
  if (alookup s.active_tickets user).isSome
      ∧ TICKET_LIMIT_PER_USER ≤ (userTickets s user).length then
    (s, CreateResult.limitExceeded, [])
  else if user ∈ s.blacklisted_users then
    (s, CreateResult.blacklisted, [])
  else if f.channelCreate then
    (s, CreateResult.transportError, [])
  else
    let t : Ticket := new_ticket channel_name category_name now
    let s' : StoreState :=
      { s with active_tickets :=
          aupdate s.active_tickets user (aupdate (userTickets s user) channel t) }
    if f.controlMessage then
      (s', CreateResult.transportError, [])
    else if f.userConfirm then
      (s', CreateResult.transportError, [Effect.channelSend channel "initial embed", Effect.pinMessage channel])
    else if f.auditLog then
      (s', CreateResult.transportError,
        [Effect.channelSend channel "initial embed", Effect.pinMessage channel,
         Effect.userSend user "Your Ticket Has Been Created"])
    else
      (s', CreateResult.success,
        [Effect.channelSend channel "initial embed", Effect.pinMessage channel,
         Effect.userSend user "Your Ticket Has Been Created",
         Effect.logAction "Ticket created"])

/-! ## Closing (actually_close_ticket, lines 289-354) -/

/-- The summary record built at lines 327-334. -/
def mkClosedRecord (channelName : String) (t : Ticket) (now : Nat)
    (closedBy : String) : ClosedRecord :=
  { channel_name := channelName, category := t.category,
    created_at := t.created_at, closed_at := now, closed_by := closedBy,
    message_count := t.messages.length }

/-- The store mutation shared by actually_close_ticket (lines 320-341) and
auto_close_tickets (lines 581-600): guarded on the ticket being present,
append the summary record to the owner's log, delete the ticket, prune the
owner entry when its dict becomes empty. -/
def close_store_update (s : StoreState) (uid cid : Nat)
    (mk : Ticket → ClosedRecord) : StoreState :=
  match alookup s.active_tickets uid with
  | none => s
  | some uts =>
    match alookup uts cid with
    | none => s
    | some t =>
      let rest := aerase uts cid
      { s with
        active_tickets :=
          if rest.isEmpty then aerase s.active_tickets uid
          else aupdate s.active_tickets uid rest,
        ticket_logs :=
          aupdate s.ticket_logs uid
            ((alookup s.ticket_logs uid).getD [] ++ [mk t]) }

inductive CloseResult where
  | closedOk
  | error
deriving Repr, DecidableEq

/-- Fault injection for actually_close_ticket, in program order: the
channel-history fetch inside create_transcript, the closing embed to the
channel, the user DM (inner try, swallowed), the audit log entry, the final
channel deletion. -/
structure CloseFaults where
  history : Bool
  channelMsg : Bool
  dm : Bool
  audit : Bool
  delete : Bool
deriving Repr, DecidableEq

def CloseFaults.none' : CloseFaults := ⟨false, false, false, false, false⟩

/-- actually_close_ticket: transcript, closing embed, user DM with
transcript (failure swallowed at line 317), guarded store update, audit log,
success response, delayed channel delete.  Every unguarded exception lands
in the except at line 352, which sends an error response. -/
def actually_close_ticket (s : StoreState) (uid cid : Nat)
    (channelName userName : String) (closer now : Nat)
    (history : List RawMessage) (f : CloseFaults) :
    StoreState × CloseResult × List Effect :=
  if f.history then
    (s, CloseResult.error, [Effect.errorNotice cid "Error closing ticket"])
  else
    let transcript := create_transcript channelName userName uid now history
    if f.channelMsg then
      (s, CloseResult.error,
        [Effect.madeTranscript cid transcript, Effect.errorNotice cid "Error closing ticket"])
    else
      let e2 := [Effect.madeTranscript cid transcript, Effect.channelSend cid "Ticket Closed"]
        ++ (if f.dm then [] else [Effect.userSendFile uid transcript])
      let s' := close_store_update s uid cid
        (fun t => mkClosedRecord channelName t now (toString closer))
      if f.audit then
        (s', CloseResult.error, e2 ++ [Effect.errorNotice cid "Error closing ticket"])
      else
        let e3 := e2 ++ [Effect.logAction "Ticket closed",
          Effect.interactionReply "Ticket closed successfully"]
        if f.delete then (s', CloseResult.closedOk, e3)
        else (s', CloseResult.closedOk, e3 ++ [Effect.deleteChannel cid])

/-! ## Archive button (TicketControls.archive_button, lines 178-187) -/

/-- archive_button: responds, edits the channel, then sets the closed flag
in place - the ticket stays in active_tickets and nothing is appended to
ticket_logs.  Any exception (including the channel edit) is caught at line
186 and leaves the store untouched. -/
def archive_button (s : StoreState) (uid cid : Nat) (editFault : Bool) :
    StoreState × List Effect :=
  if editFault then
    (s, [Effect.interactionReply "Archiving ticket...", Effect.errorNotice cid "Error archiving channel"])
  else
    match alookup s.active_tickets uid with
    | none => (s, [Effect.interactionReply "Archiving ticket...", Effect.errorNotice cid "Error archiving channel"])
    | some uts =>
      match alookup uts cid with
      | none => (s, [Effect.interactionReply "Archiving ticket...", Effect.errorNotice cid "Error archiving channel"])
      | some t =>
        ({ s with active_tickets :=
            aupdate s.active_tickets uid (aupdate uts cid { t with closed := true }) },
         [Effect.interactionReply "Archiving ticket..."])

/-! ## Transfer (DepartmentSelect.callback, lines 202-236) -/

/-- The department transfer callback: rename the channel (raises jump to
line 235), then update the category in place and notify both sides. -/
def transfer_ticket (s : StoreState) (uid cid : Nat) (newCategory : String)
    (renameFault : Bool) : StoreState × List Effect :=
  if renameFault then
    (s, [Effect.errorNotice cid "Error transferring ticket"])
  else
    match alookup s.active_tickets uid with
    | none => (s, [Effect.errorNotice cid "Error transferring ticket"])
    | some uts =>
      match alookup uts cid with
      | none => (s, [Effect.errorNotice cid "Error transferring ticket"])
      | some t =>
        ({ s with active_tickets :=
            aupdate s.active_tickets uid (aupdate uts cid { t with category := newCategory }) },
         [Effect.channelSend cid "Ticket Transferred",
          Effect.userSend uid "Ticket Transferred",
          Effect.interactionReply "Ticket transferred"])

/-! ## Welcome throttle (send_welcome_message, lines 477-508) -/

/-- send_welcome_message: suppressed without any state change while
`now - last < WELCOME_MESSAGE_COOLDOWN`; otherwise sends the category-menu
greeting and only then records the timestamp (a failed send leaves the
table unchanged because the update at line 507 is never reached). -/
def send_welcome_message (s : StoreState) (user now : Nat) (sendFault : Bool) :
    StoreState × List Effect :=
  match alookup s.user_welcome_timestamps user with
  | some last =>
    if now - last < WELCOME_MESSAGE_COOLDOWN then (s, [])
    else if sendFault then (s, [])
    else ({ s with user_welcome_timestamps := aupdate s.user_welcome_timestamps user now },
          [Effect.sendWelcome user])
  | none =>
    if sendFault then (s, [])
    else ({ s with user_welcome_timestamps := aupdate s.user_welcome_timestamps user now },
          [Effect.sendWelcome user])

/-! ## Channel lookups (the nested scans of forward_to_channel, on_message
and on_reaction_add) -/

/-- The scan of forward_to_channel lines 822-828: first user whose ticket
dict has this channel id, ignoring the closed flag. -/
def find_ticket_by_channel : List (Nat × List (Nat × Ticket)) → Nat → Option (Nat × Ticket)
  | [], _ => none
  | p :: rest, ch =>
    match alookup p.2 ch with
    | some t => some (p.1, t)
    | none => find_ticket_by_channel rest ch

/-- The scan of on_message lines 748-755 (and on_reaction_add): first entry
matching the channel id whose closed flag is clear. -/
def find_open_ticket_by_channel : List (Nat × List (Nat × Ticket)) → Nat → Option (Nat × Ticket)
  | [], _ => none
  | p :: rest, ch =>
    match p.2.find? (fun q => q.1 == ch && !q.2.closed) with
    | some q => some (p.1, q.2)
    | none => find_open_ticket_by_channel rest ch

/-- In-place mutation of a found ticket record (Python mutates the shared
dict object). -/
def set_ticket (s : StoreState) (uid cid : Nat) (t : Ticket) : StoreState :=
  { s with active_tickets :=
      aupdate s.active_tickets uid (aupdate (userTickets s uid) cid t) }

/-! ## User-to-staff forwarding (forward_to_channel, lines 817-894) -/

/-- Fault injection for forward_to_channel: the channel send (line 857,
before the log append) and the reaction adds (lines 868-877, after the log
append); `welcomeSend` is the greeting send inside the not-found branch. -/
structure ForwardFaults where
  send : Bool
  reactions : Bool
  welcomeSend : Bool
deriving Repr, DecidableEq

/-- forward_to_channel: find the ticket by channel id (closed flag ignored),
update last_activity immediately (line 832), send the embed to the channel,
and only after a successful send append the entry to the message log (lines
857-865).  Any raise is caught at line 892 and reported to the sender; a
raise at the channel send therefore leaves no log entry, a raise at the
reaction adds leaves the entry in place. -/
def forward_to_channel (s : StoreState) (author : Nat) (content : String)
    (attachments : List String) (channel now cmid umid : Nat)
    (f : ForwardFaults) : StoreState × List Effect :=
  match find_ticket_by_channel s.active_tickets channel with
  | some r =>
    let t1 := { r.2 with last_activity := now }
    let s1 := set_ticket s r.1 channel t1
    if f.send then
      (s1, [Effect.errorNotice author "Error sending your message"])
    else
      let entry : Message :=
        { author_id := author, content := content, timestamp := now,
          attachments := attachments, channel_msg_id := some cmid,
          user_msg_id := some umid }
      let s2 := set_ticket s1 r.1 channel { t1 with messages := t1.messages ++ [entry] }
      if f.reactions then
        (s2, [Effect.channelSend channel content,
              Effect.errorNotice author "Error sending your message"])
      else
        (s2, [Effect.channelSend channel content,
              Effect.addReaction channel "done", Effect.addReaction channel "reply",
              Effect.addReaction channel "note", Effect.addReaction author "receipt"])
  | none =>
    let w := send_welcome_message s author now f.welcomeSend
    (w.1, Effect.userSend author "I could not find an active ticket" :: w.2)

/-! ## Staff-to-user relay (the ticket-channel branch of on_message,
lines 743-812) -/

/-- The staff branch of on_message: find the open ticket owning this
channel, update last_activity and append the log entry first (lines
760-768), then try the DM relay; a transport failure there is caught at
line 810 and reported into the channel, leaving the already-recorded entry
in place. -/
def on_message_staff (s : StoreState) (channel author : Nat) (content : String)
    (attachments : List String) (now : Nat) (sendFault : Bool) :
    StoreState × List Effect :=
  match find_open_ticket_by_channel s.active_tickets channel with
  | none => (s, [])
  | some r =>
    let entry : Message :=
      { author_id := author, content := content, timestamp := now,
        attachments := attachments, channel_msg_id := none, user_msg_id := none }
    let s1 := set_ticket s r.1 channel
      { r.2 with last_activity := now, messages := r.2.messages ++ [entry] }
    if sendFault then
      (s1, [Effect.errorNotice channel "Error sending message to user"])
    else
      (s1, [Effect.userSend r.1 content, Effect.addReaction channel "sent"])

/-! ## DM routing decision (the DM branch of on_message, lines 673-740) -/

inductive RouteAction where
  | blacklistRejected
  | welcomed
  | prompted (options : List Nat)
  | forwarded (channel : Nat)
  | noAction
deriving Repr, DecidableEq

/-- The fallback loop at lines 734-737: first ticket in dict iteration
order whose closed flag is clear. -/
def firstOpenTicket (uts : List (Nat × Ticket)) : Option Nat :=
  (uts.find? (fun p => !p.2.closed)).map Prod.fst

/-- The routing decision of the DM branch of on_message.  `reference`
carries the channel the replied-to message belongs to; the code only tests
`not message.reference` (truthiness) and never reads which message was
replied to, so the payload is ignored. -/
def on_message_dm_route (s : StoreState) (author : Nat) (reference : Option Nat) :
    RouteAction :=
  if author ∈ s.blacklisted_users then RouteAction.blacklistRejected
  else
    match alookup s.active_tickets author with
    | none => RouteAction.welcomed
    | some uts =>
      if 1 < uts.length ∧ reference.isNone then
        let options := (uts.filter (fun p => !p.2.closed)).map Prod.fst
        if options.isEmpty then
          match firstOpenTicket uts with
          | some cid => RouteAction.forwarded cid
          | none => RouteAction.noAction
        else RouteAction.prompted options
      else
        match firstOpenTicket uts with
        | some cid => RouteAction.forwarded cid
        | none => RouteAction.noAction

/-! ## Quick-reply modal (ReplyModal.on_submit, lines 934-982) -/

/-- The quick-reply modal: send the DM first; only on success append the
entry and update last_activity (lines 956-970). -/
def reply_modal_submit (s : StoreState) (channel author : Nat)
    (content : String) (now : Nat) (sendFault : Bool) :
    StoreState × List Effect :=
  match find_open_ticket_by_channel s.active_tickets channel with
  | none => (s, [])
  | some r =>
    if sendFault then (s, [Effect.errorNotice channel "Error sending reply"])
    else
      let entry : Message :=
        { author_id := author, content := content, timestamp := now,
          attachments := [], channel_msg_id := none, user_msg_id := none }
      (set_ticket s r.1 channel
        { r.2 with last_activity := now, messages := r.2.messages ++ [entry] },
       [Effect.userSend r.1 content, Effect.interactionReply "Reply sent successfully",
        Effect.channelSend channel content])

/-! ## Typing indicator flags (on_typing, lines 616-660) -/

def set_typing (s : StoreState) (uid cid : Nat) (staffSide val : Bool) : StoreState :=
  match alookup s.active_tickets uid with
  | none => s
  | some uts =>
    match alookup uts cid with
    | none => s
    | some t =>
      set_ticket s uid cid
        (if staffSide then { t with staff_typing := val } else { t with user_typing := val })

/-! ## Idle reaper (auto_close_tickets, lines 528-613) -/

/-- The inactivity test at lines 541-544: hours since last activity, at
least AUTO_CLOSE_TIME. -/
def ticketInactive (now : Nat) (t : Ticket) : Bool :=
  AUTO_CLOSE_TIME ≤ (now - t.last_activity) / 3600

/-- The collection pass at lines 536-545: every non-closed ticket past the
threshold, in iteration order. -/
def collect_inactive (s : StoreState) (now : Nat) : List (Nat × Nat) :=
  s.active_tickets.flatMap (fun p =>
    (p.2.filter (fun q => !q.2.closed && ticketInactive now q.2)).map (fun q => (p.1, q.1)))

/-- The summary record of lines 586-593; "auto-close" is the sentinel the
code writes for a system (reaper) closure, in place of a staff user id. -/
def autoCloseRecord (t : Ticket) (now : Nat) : ClosedRecord :=
  { channel_name := t.channel_name, category := t.category,
    created_at := t.created_at, closed_at := now, closed_by := "auto-close",
    message_count := t.messages.length }

/-- Per-channel fault injection for one sweep: `pre` is any raise before
the store update (channel send, user fetch, transcript); `dm` is the
swallowed notification DM; `del` is the final channel deletion. -/
structure SweepFaults where
  pre : Nat → Bool
  dm : Nat → Bool
  del : Nat → Bool

def SweepFaults.none' : SweepFaults := ⟨fun _ => false, fun _ => false, fun _ => false⟩

/-- The per-ticket closure body of the sweep (lines 548-606): auto-close
embed, transcript, notification DM (swallowed on failure), store update,
channel deletion; every raise before the store update is caught by the
per-ticket except at line 605 and skips this ticket only. -/
def auto_close_one (names : Nat → String) (history : Nat → List RawMessage)
    (f : SweepFaults) (now : Nat) (s : StoreState) (uid cid : Nat) :
    StoreState × List Effect :=
  match alookup s.active_tickets uid with
  | none => (s, [])
  | some uts =>
    match alookup uts cid with
    | none => (s, [])
    | some t =>
      if f.pre cid then (s, [])
      else
        let transcript := create_transcript t.channel_name (names uid) uid now (history cid)
        let e1 := [Effect.channelSend cid "Ticket Auto-Closed",
            Effect.madeTranscript cid transcript]
          ++ (if f.dm cid then [] else [Effect.userSendFile uid transcript])
        (close_store_update s uid cid (fun t0 => autoCloseRecord t0 now),
         e1 ++ (if f.del cid then [] else [Effect.deleteChannel cid]))

def sweep_go (names : Nat → String) (history : Nat → List RawMessage)
    (f : SweepFaults) (now : Nat) :
    List (Nat × Nat) → StoreState × List Effect → StoreState × List Effect
  | [], acc => acc
  | p :: rest, acc =>
    let r := auto_close_one names history f now acc.1 p.1 p.2
    sweep_go names history f now rest (r.1, acc.2 ++ r.2)

/-- One iteration of the auto_close_tickets loop body: collect the
inactive tickets, then close each, isolating per-ticket failures. -/
def auto_close_tickets (names : Nat → String) (history : Nat → List RawMessage)
    (f : SweepFaults) (now : Nat) (s : StoreState) : StoreState × List Effect :=
  sweep_go names history f now (collect_inactive s now) (s, [])

/-! ## Blacklist mutations (blacklist_button line 174, the blacklist and
unblacklist commands lines 1064-1091) -/

def blacklist_add (l : List Nat) (u : Nat) : List Nat :=
  if u ∈ l then l else u :: l

def blacklist_remove (l : List Nat) (u : Nat) : List Nat :=
  l.filter (fun x => x ≠ u)

/-! ## The operation step relation and reachability

One `Step` per state-mutating code path of the source; `Reachable` is any
finite interleaving from the empty startup state. -/

inductive Step : StoreState → StoreState → Prop
  | create (s : StoreState) (u : Nat) (cat : String) (ch : Nat) (chn : String)
      (now : Nat) (f : CreateFaults) :
      Step s (create_ticket s u cat ch chn now f).1
  | close (s : StoreState) (uid cid : Nat) (chn un : String) (closer now : Nat)
      (hist : List RawMessage) (f : CloseFaults) :
      Step s (actually_close_ticket s uid cid chn un closer now hist f).1
  | archive (s : StoreState) (uid cid : Nat) (fault : Bool) :
      Step s (archive_button s uid cid fault).1
  | transfer (s : StoreState) (uid cid : Nat) (cat : String) (fault : Bool) :
      Step s (transfer_ticket s uid cid cat fault).1
  | welcome (s : StoreState) (u now : Nat) (fault : Bool) :
      Step s (send_welcome_message s u now fault).1
  | forward (s : StoreState) (author : Nat) (content : String) (atts : List String)
      (ch now cmid umid : Nat) (f : ForwardFaults) :
      Step s (forward_to_channel s author content atts ch now cmid umid f).1
  | staffRelay (s : StoreState) (ch author : Nat) (content : String)
      (atts : List String) (now : Nat) (fault : Bool) :
      Step s (on_message_staff s ch author content atts now fault).1
  | quickReply (s : StoreState) (ch author : Nat) (content : String) (now : Nat)
      (fault : Bool) :
      Step s (reply_modal_submit s ch author content now fault).1
  | typing (s : StoreState) (uid cid : Nat) (staffSide val : Bool) :
      Step s (set_typing s uid cid staffSide val)
  | sweep (s : StoreState) (names : Nat → String) (history : Nat → List RawMessage)
      (f : SweepFaults) (now : Nat) :
      Step s (auto_close_tickets names history f now s).1
  | blacklistAdd (s : StoreState) (u : Nat) :
      Step s { s with blacklisted_users := blacklist_add s.blacklisted_users u }
  | blacklistRemove (s : StoreState) (u : Nat) :
      Step s { s with blacklisted_users := blacklist_remove s.blacklisted_users u }
  | restore (s : StoreState) (bl : List Nat) (logs : List (Nat × List ClosedRecord))
      (tw : List (Nat × Nat)) :
      Step s ⟨s.active_tickets, bl, logs, tw⟩

def Reachable (s : StoreState) : Prop :=
  Relation.ReflTransGen Step initialState s

/-- Well-formedness: dict key uniqueness, automatic in Python, carried as an
invariant of the list model. -/
def WF (s : StoreState) : Prop :=
  keysNodup s.active_tickets ∧ ∀ p ∈ s.active_tickets, keysNodup p.2

/-- The per-user active-ticket bound of the spec. -/
def TicketBound (s : StoreState) : Prop :=
  ∀ u, (userTickets s u).length ≤ TICKET_LIMIT_PER_USER

/-! ## Verification predicates for one reaper sweep -/

/-- A targeted ticket has been fully reaped in the sweep state `x`: gone
from the active index, its auto-close summary appended, and its transcript
produced. -/
def SweepDone (uid cid : Nat) (t : Ticket) (now : Nat) (names : Nat → String)
    (history : Nat → List RawMessage) (x : StoreState × List Effect) : Prop :=
  alookup (userTickets x.1 uid) cid = none ∧
  autoCloseRecord t now ∈ (alookup x.1.ticket_logs uid).getD [] ∧
  Effect.madeTranscript cid (create_transcript t.channel_name (names uid) uid now (history cid))
    ∈ x.2

/-- Mid-sweep invariant for one targeted ticket: either still present with
its original data, or fully reaped. -/
def SweepInv (uid cid : Nat) (t : Ticket) (now : Nat) (names : Nat → String)
    (history : Nat → List RawMessage) (x : StoreState × List Effect) : Prop :=
  alookup (userTickets x.1 uid) cid = some t ∨ SweepDone uid cid t now names history x

/-! ## Concrete example states used by the witnesses -/

def exTicket : Ticket := new_ticket "chan-a" "Support" 0

def exState1 : StoreState := ⟨[(5, [(50, exTicket)])], [], [], []⟩

def exTicketClosed : Ticket := { new_ticket "chan-b" "Billing" 0 with closed := true }

def exState2 : StoreState := ⟨[(5, [(50, exTicketClosed), (60, exTicket)])], [], [], []⟩

def exStateB : StoreState := ⟨[(5, [(50, exTicket)])], [5], [], []⟩

/-! ## Association-list lemmas -/

theorem alookup_aupdate_self {α : Type} (l : List (Nat × α)) (k : Nat) (v : α) :
    alookup (aupdate l k v) k = some v := by
  induction l with
  | nil => simp [aupdate, alookup]
  | cons p rest ih =>
    obtain ⟨k', v'⟩ := p
    by_cases h : k' = k
    · simp [aupdate, alookup, h]
    · simp [aupdate, alookup, h, ih]

theorem alookup_aupdate_ne {α : Type} (l : List (Nat × α)) (k k' : Nat) (v : α)
    (h : k' ≠ k) : alookup (aupdate l k v) k' = alookup l k' := by
  have hkk : ¬ k = k' := fun hh => h hh.symm
  induction l with
  | nil => simp [aupdate, alookup, hkk]
  | cons p rest ih =>
    obtain ⟨k0, v0⟩ := p
    by_cases hk : k0 = k
    · subst hk
      simp [aupdate, alookup, hkk]
    · simp [aupdate, alookup, hk, ih]

theorem alookup_aerase_self {α : Type} (l : List (Nat × α)) (k : Nat) :
    alookup (aerase l k) k = none := by
  induction l with
  | nil => simp [aerase, alookup]
  | cons p rest ih =>
    obtain ⟨k', v'⟩ := p
    by_cases h : k' = k
    · simp [aerase, h, ih]
    · simp [aerase, alookup, h, ih]

theorem alookup_aerase_ne {α : Type} (l : List (Nat × α)) (k k' : Nat)
    (h : k' ≠ k) : alookup (aerase l k) k' = alookup l k' := by
  have hkk : ¬ k = k' := fun hh => h hh.symm
  induction l with
  | nil => simp [aerase]
  | cons p rest ih =>
    obtain ⟨k0, v0⟩ := p
    by_cases hk : k0 = k
    · subst hk
      simp [aerase, alookup, hkk, ih]
    · simp [aerase, alookup, hk, ih]

theorem aerase_sublist {α : Type} (l : List (Nat × α)) (k : Nat) :
    (aerase l k).Sublist l := by
  induction l with
  | nil => simp [aerase]
  | cons p rest ih =>
    obtain ⟨k', v'⟩ := p
    by_cases h : k' = k
    · simpa [aerase, h] using ih.cons (k', v')
    · simpa [aerase, h] using ih.cons₂ (k', v')

theorem length_aerase_le {α : Type} (l : List (Nat × α)) (k : Nat) :
    (aerase l k).length ≤ l.length :=
  (aerase_sublist l k).length_le

theorem length_aupdate_of_isSome {α : Type} (l : List (Nat × α)) (k : Nat) (v : α)
    (h : (alookup l k).isSome) : (aupdate l k v).length = l.length := by
  induction l with
  | nil => simp [alookup] at h
  | cons p rest ih =>
    obtain ⟨k', v'⟩ := p
    by_cases hk : k' = k
    · simp [aupdate, hk]
    · simp only [alookup, hk, if_false] at h
      simp [aupdate, hk, ih h]

theorem keys_aupdate_of_isSome {α : Type} (l : List (Nat × α)) (k : Nat) (v : α)
    (h : (alookup l k).isSome) :
    (aupdate l k v).map Prod.fst = l.map Prod.fst := by
  induction l with
  | nil => simp [alookup] at h
  | cons p rest ih =>
    obtain ⟨k', v'⟩ := p
    by_cases hk : k' = k
    · simp [aupdate, hk]
    · simp only [alookup, hk, if_false] at h
      simp [aupdate, hk, ih h]

theorem keys_aupdate_of_none {α : Type} (l : List (Nat × α)) (k : Nat) (v : α)
    (h : alookup l k = none) :
    (aupdate l k v).map Prod.fst = l.map Prod.fst ++ [k] := by
  induction l with
  | nil => simp [aupdate]
  | cons p rest ih =>
    obtain ⟨k', v'⟩ := p
    by_cases hk : k' = k
    · simp [alookup, hk] at h
    · simp only [alookup, hk, if_false] at h
      simp [aupdate, hk, ih h]

theorem alookup_eq_none_iff {α : Type} (l : List (Nat × α)) (k : Nat) :
    alookup l k = none ↔ k ∉ l.map Prod.fst := by
  induction l with
  | nil => simp [alookup]
  | cons p rest ih =>
    obtain ⟨k', v'⟩ := p
    by_cases hk : k' = k
    · simp [alookup, hk]
    · have hkk : ¬ k = k' := fun hh => hk hh.symm
      simp [alookup, hk, ih, hkk]

theorem alookup_mem {α : Type} (l : List (Nat × α)) (k : Nat) (v : α)
    (h : alookup l k = some v) : (k, v) ∈ l := by
  induction l with
  | nil => simp [alookup] at h
  | cons p rest ih =>
    obtain ⟨k', v'⟩ := p
    by_cases hk : k' = k
    · simp only [alookup, hk, if_true, Option.some.injEq] at h
      subst hk h
      exact List.mem_cons_self _ _
    · simp only [alookup, hk, if_false] at h
      exact List.mem_cons_of_mem _ (ih h)

theorem alookup_of_mem_nodup {α : Type} (l : List (Nat × α)) (k : Nat) (v : α)
    (hnd : keysNodup l) (h : (k, v) ∈ l) : alookup l k = some v := by
  induction l with
  | nil => simp at h
  | cons p rest ih =>
    obtain ⟨k', v'⟩ := p
    simp only [keysNodup, List.map_cons, List.nodup_cons] at hnd
    rcases List.mem_cons.mp h with h1 | h1
    · simp only [Prod.mk.injEq] at h1
      obtain ⟨rfl, rfl⟩ := h1
      simp [alookup]
    · have hk : k' ≠ k := by
        rintro rfl
        exact hnd.1 (List.mem_map.mpr ⟨(k', v), h1, rfl⟩)
      simp [alookup, hk, ih hnd.2 h1]

theorem mem_of_mem_aupdate {α : Type} (l : List (Nat × α)) (k : Nat) (v : α)
    (p : Nat × α) (h : p ∈ aupdate l k v) : p ∈ l ∨ p = (k, v) := by
  induction l with
  | nil => simp [aupdate] at h; right; exact h
  | cons q rest ih =>
    obtain ⟨k', v'⟩ := q
    by_cases hk : k' = k
    · simp only [aupdate, hk, if_true] at h
      rcases List.mem_cons.mp h with h1 | h1
      · right; exact h1
      · left; exact List.mem_cons_of_mem _ h1
    · simp only [aupdate, hk, if_false] at h
      rcases List.mem_cons.mp h with h1 | h1
      · left; exact h1 ▸ List.mem_cons_self _ _
      · rcases ih h1 with h2 | h2
        · left; exact List.mem_cons_of_mem _ h2
        · right; exact h2

theorem mem_of_mem_aerase {α : Type} (l : List (Nat × α)) (k : Nat)
    (p : Nat × α) (h : p ∈ aerase l k) : p ∈ l :=
  (aerase_sublist l k).mem h

theorem keysNodup_aupdate {α : Type} (l : List (Nat × α)) (k : Nat) (v : α)
    (hnd : keysNodup l) : keysNodup (aupdate l k v) := by
  unfold keysNodup
  rcases h : alookup l k with _ | w
  · rw [keys_aupdate_of_none l k v h]
    refine hnd.append (List.nodup_singleton k) ?_
    intro a ha hb
    simp only [List.mem_singleton] at hb
    subst hb
    exact (alookup_eq_none_iff l a).mp h ha
  · rw [keys_aupdate_of_isSome l k v (by simp [h])]
    exact hnd

theorem keysNodup_aerase {α : Type} (l : List (Nat × α)) (k : Nat)
    (hnd : keysNodup l) : keysNodup (aerase l k) :=
  List.Nodup.sublist ((aerase_sublist l k).map Prod.fst) hnd

theorem alookup_isSome_of_getD_ne_nil {β : Type} (l : List (Nat × List β)) (k : Nat)
    (h : (alookup l k).getD [] ≠ []) :
    (alookup l k).isSome := by
  rcases hh : alookup l k with _ | w
  · rw [hh] at h; simp at h
  · simp

theorem alookup_isSome_of_mem {α : Type} (l : List (Nat × α)) (k : Nat) (v : α)
    (h : (k, v) ∈ l) : (alookup l k).isSome := by
  induction l with
  | nil => simp at h
  | cons p rest ih =>
    obtain ⟨k', v'⟩ := p
    by_cases hk : k' = k
    · simp [alookup, hk]
    · rcases List.mem_cons.mp h with h1 | h1
      · simp only [Prod.mk.injEq] at h1
        exact absurd h1.1.symm hk
      · simpa [alookup, hk] using ih h1

/-! ## State-level helper lemmas -/

theorem userTickets_of_alookup (s : StoreState) (u : Nat) (uts : List (Nat × Ticket))
    (hu : alookup s.active_tickets u = some uts) : userTickets s u = uts := by
  simp [userTickets, hu]

theorem keysNodup_userTickets (s : StoreState) (h : WF s) (u : Nat) :
    keysNodup (userTickets s u) := by
  rcases hu : alookup s.active_tickets u with _ | uts
  · simp [userTickets, hu, keysNodup]
  · rw [userTickets_of_alookup s u uts hu]
    exact h.2 (u, uts) (alookup_mem _ _ _ hu)

theorem userTickets_set_ticket_self (s : StoreState) (uid cid : Nat) (t : Ticket) :
    userTickets (set_ticket s uid cid t) uid = aupdate (userTickets s uid) cid t := by
  simp [set_ticket, userTickets, alookup_aupdate_self]

theorem userTickets_set_ticket_ne (s : StoreState) (uid cid : Nat) (t : Ticket)
    (u : Nat) (h : u ≠ uid) :
    userTickets (set_ticket s uid cid t) u = userTickets s u := by
  simp [set_ticket, userTickets, alookup_aupdate_ne _ _ _ _ h]

theorem set_ticket_blacklist (s : StoreState) (uid cid : Nat) (t : Ticket) :
    (set_ticket s uid cid t).blacklisted_users = s.blacklisted_users := rfl

theorem WF_set_ticket (s : StoreState) (uid cid : Nat) (t : Ticket) (h : WF s) :
    WF (set_ticket s uid cid t) := by
  refine ⟨keysNodup_aupdate _ _ _ h.1, ?_⟩
  intro p hp
  rcases mem_of_mem_aupdate _ _ _ _ hp with h1 | h1
  · exact h.2 p h1
  · subst h1
    exact keysNodup_aupdate _ _ _ (keysNodup_userTickets s h uid)

theorem TicketBound_set_ticket (s : StoreState) (uid cid : Nat) (t : Ticket)
    (hsome : (alookup (userTickets s uid) cid).isSome) (h : TicketBound s) :
    TicketBound (set_ticket s uid cid t) := by
  intro u
  by_cases hu : u = uid
  · subst hu
    rw [userTickets_set_ticket_self, length_aupdate_of_isSome _ _ _ hsome]
    exact h u
  · rw [userTickets_set_ticket_ne _ _ _ _ _ hu]
    exact h u

theorem close_store_update_eq (s : StoreState) (uid cid : Nat)
    (mk : Ticket → ClosedRecord) (uts : List (Nat × Ticket)) (t : Ticket)
    (hu : alookup s.active_tickets uid = some uts)
    (ht : alookup uts cid = some t) :
    close_store_update s uid cid mk =
      { s with
        active_tickets :=
          if (aerase uts cid).isEmpty then aerase s.active_tickets uid
          else aupdate s.active_tickets uid (aerase uts cid),
        ticket_logs :=
          aupdate s.ticket_logs uid ((alookup s.ticket_logs uid).getD [] ++ [mk t]) } := by
  simp only [close_store_update, hu, ht]

theorem close_store_update_eq_self (s : StoreState) (uid cid : Nat)
    (mk : Ticket → ClosedRecord)
    (h : alookup (userTickets s uid) cid = none) :
    close_store_update s uid cid mk = s := by
  rcases hu : alookup s.active_tickets uid with _ | uts
  · simp only [close_store_update, hu]
  · rw [userTickets_of_alookup s uid uts hu] at h
    simp only [close_store_update, hu, h]

theorem close_store_update_lookup_self (s : StoreState) (uid cid : Nat)
    (mk : Ticket → ClosedRecord) :
    alookup (userTickets (close_store_update s uid cid mk) uid) cid = none := by
  rcases hu : alookup s.active_tickets uid with _ | uts
  · rw [close_store_update_eq_self s uid cid mk (by simp [userTickets, hu, alookup])]
    simp [userTickets, hu, alookup]
  · rcases ht : alookup uts cid with _ | t
    · rw [close_store_update_eq_self s uid cid mk
        (by rw [userTickets_of_alookup s uid uts hu]; exact ht)]
      rw [userTickets_of_alookup s uid uts hu]
      exact ht
    · rw [close_store_update_eq s uid cid mk uts t hu ht]
      by_cases hre : (aerase uts cid).isEmpty
      · simp only [userTickets, if_pos hre]
        simp [alookup_aerase_self, alookup]
      · simp only [userTickets, if_neg hre]
        simp [alookup_aupdate_self, alookup_aerase_self]

theorem close_store_update_userTickets_ne (s : StoreState) (uid cid : Nat)
    (mk : Ticket → ClosedRecord) (u : Nat) (h : u ≠ uid) :
    userTickets (close_store_update s uid cid mk) u = userTickets s u := by
  rcases hu : alookup s.active_tickets uid with _ | uts
  · rw [close_store_update_eq_self s uid cid mk (by simp [userTickets, hu, alookup])]
  · rcases ht : alookup uts cid with _ | t
    · rw [close_store_update_eq_self s uid cid mk
        (by rw [userTickets_of_alookup s uid uts hu]; exact ht)]
    · rw [close_store_update_eq s uid cid mk uts t hu ht]
      by_cases hre : (aerase uts cid).isEmpty
      · simp only [userTickets, if_pos hre]
        rw [alookup_aerase_ne _ _ _ h]
      · simp only [userTickets, if_neg hre]
        rw [alookup_aupdate_ne _ _ _ _ h]

theorem close_store_update_logs_mem (s : StoreState) (uid cid : Nat)
    (mk : Ticket → ClosedRecord) (uts : List (Nat × Ticket)) (t : Ticket)
    (hu : alookup s.active_tickets uid = some uts)
    (ht : alookup uts cid = some t) :
    mk t ∈ (alookup (close_store_update s uid cid mk).ticket_logs uid).getD [] := by
  rw [close_store_update_eq s uid cid mk uts t hu ht]
  simp [alookup_aupdate_self]

theorem close_store_update_logs_ne (s : StoreState) (uid cid : Nat)
    (mk : Ticket → ClosedRecord) (u : Nat) (h : u ≠ uid) :
    alookup (close_store_update s uid cid mk).ticket_logs u = alookup s.ticket_logs u := by
  rcases hu : alookup s.active_tickets uid with _ | uts
  · rw [close_store_update_eq_self s uid cid mk (by simp [userTickets, hu, alookup])]
  · rcases ht : alookup uts cid with _ | t
    · rw [close_store_update_eq_self s uid cid mk
        (by rw [userTickets_of_alookup s uid uts hu]; exact ht)]
    · rw [close_store_update_eq s uid cid mk uts t hu ht]
      exact alookup_aupdate_ne _ _ _ _ h

theorem close_store_update_logs_mono (s : StoreState) (uid cid : Nat)
    (mk : Ticket → ClosedRecord) (u : Nat) (r : ClosedRecord)
    (h : r ∈ (alookup s.ticket_logs u).getD []) :
    r ∈ (alookup (close_store_update s uid cid mk).ticket_logs u).getD [] := by
  rcases hu : alookup s.active_tickets uid with _ | uts
  · rw [close_store_update_eq_self s uid cid mk (by simp [userTickets, hu, alookup])]
    exact h
  · rcases ht : alookup uts cid with _ | t
    · rw [close_store_update_eq_self s uid cid mk
        (by rw [userTickets_of_alookup s uid uts hu]; exact ht)]
      exact h
    · rw [close_store_update_eq s uid cid mk uts t hu ht]
      by_cases hx : u = uid
      · subst hx
        simp only [alookup_aupdate_self]
        simp only [Option.getD_some]
        exact List.mem_append_left _ h
      · simpa [alookup_aupdate_ne _ _ _ _ hx] using h

theorem close_store_update_lookup_none (s : StoreState) (uid cid : Nat)
    (mk : Ticket → ClosedRecord) (u c : Nat)
    (h : alookup (userTickets s u) c = none) :
    alookup (userTickets (close_store_update s uid cid mk) u) c = none := by
  by_cases hx : u = uid
  · subst hx
    rcases hu : alookup s.active_tickets u with _ | uts
    · rw [close_store_update_eq_self s u cid mk (by simp [userTickets, hu, alookup])]
      exact h
    · rcases ht : alookup uts cid with _ | t
      · rw [close_store_update_eq_self s u cid mk
          (by rw [userTickets_of_alookup s u uts hu]; exact ht)]
        exact h
      · rw [close_store_update_eq s u cid mk uts t hu ht]
        rw [userTickets_of_alookup s u uts hu] at h
        by_cases hre : (aerase uts cid).isEmpty
        · have hre' : aerase uts cid = [] := by simpa using hre
          simp [userTickets, hre', alookup_aerase_self, alookup, TICKET_LIMIT_PER_USER]
        · simp only [userTickets, if_neg hre]
          rw [alookup_aupdate_self]
          simp only [Option.getD_some]
          by_cases hc : c = cid
          · subst hc; exact alookup_aerase_self _ _
          · rw [alookup_aerase_ne _ _ _ hc]; exact h
  · rw [close_store_update_userTickets_ne s uid cid mk u hx]
    exact h

theorem WF_close_store_update (s : StoreState) (uid cid : Nat)
    (mk : Ticket → ClosedRecord) (h : WF s) :
    WF (close_store_update s uid cid mk) := by
  rcases hu : alookup s.active_tickets uid with _ | uts
  · rw [close_store_update_eq_self s uid cid mk (by simp [userTickets, hu, alookup])]
    exact h
  · rcases ht : alookup uts cid with _ | t
    · rw [close_store_update_eq_self s uid cid mk
        (by rw [userTickets_of_alookup s uid uts hu]; exact ht)]
      exact h
    · rw [close_store_update_eq s uid cid mk uts t hu ht]
      by_cases hre : (aerase uts cid).isEmpty
      · simp only [WF, if_pos hre]
        refine ⟨keysNodup_aerase _ _ h.1, ?_⟩
        intro p hp
        exact h.2 p (mem_of_mem_aerase _ _ _ hp)
      · simp only [WF, if_neg hre]
        refine ⟨keysNodup_aupdate _ _ _ h.1, ?_⟩
        intro p hp
        rcases mem_of_mem_aupdate _ _ _ _ hp with h1 | h1
        · exact h.2 p h1
        · subst h1
          exact keysNodup_aerase _ _ (h.2 (uid, uts) (alookup_mem _ _ _ hu))

theorem TicketBound_close_store_update (s : StoreState) (uid cid : Nat)
    (mk : Ticket → ClosedRecord) (h : TicketBound s) :
    TicketBound (close_store_update s uid cid mk) := by
  intro u
  rcases hu : alookup s.active_tickets uid with _ | uts
  · rw [close_store_update_eq_self s uid cid mk (by simp [userTickets, hu, alookup])]
    exact h u
  · rcases ht : alookup uts cid with _ | t
    · rw [close_store_update_eq_self s uid cid mk
        (by rw [userTickets_of_alookup s uid uts hu]; exact ht)]
      exact h u
    · rw [close_store_update_eq s uid cid mk uts t hu ht]
      by_cases hx : u = uid
      · subst hx
        by_cases hre : (aerase uts cid).isEmpty
        · have hre' : aerase uts cid = [] := by simpa using hre
          simp [userTickets, hre', alookup_aerase_self, alookup, TICKET_LIMIT_PER_USER]
        · simp only [userTickets, if_neg hre]
          rw [alookup_aupdate_self]
          simp only [Option.getD_some]
          calc (aerase uts cid).length ≤ uts.length := length_aerase_le _ _
            _ = (userTickets s u).length := by rw [userTickets_of_alookup s u uts hu]
            _ ≤ TICKET_LIMIT_PER_USER := h u
      · by_cases hre : (aerase uts cid).isEmpty
        · simp only [userTickets, if_pos hre]
          rw [alookup_aerase_ne _ _ _ hx]
          exact h u
        · simp only [userTickets, if_neg hre]
          rw [alookup_aupdate_ne _ _ _ _ hx]
          exact h u

/-! ## Lemmas about the channel scans -/

theorem find_ticket_spec (l : List (Nat × List (Nat × Ticket))) (ch : Nat)
    (r : Nat × Ticket) (hnd : keysNodup l)
    (h : find_ticket_by_channel l ch = some r) :
    ∃ uts, alookup l r.1 = some uts ∧ alookup uts ch = some r.2 := by
  induction l with
  | nil => simp [find_ticket_by_channel] at h
  | cons p rest ih =>
    obtain ⟨k0, v0⟩ := p
    simp only [keysNodup, List.map_cons, List.nodup_cons] at hnd
    rcases ha : alookup v0 ch with _ | t
    · simp only [find_ticket_by_channel, ha] at h
      obtain ⟨uts, h1, h2⟩ := ih hnd.2 h
      refine ⟨uts, ?_, h2⟩
      have hmem : r.1 ∈ rest.map Prod.fst := by
        by_contra hnm
        rw [(alookup_eq_none_iff rest r.1).mpr hnm] at h1
        cases h1
      have hk : k0 ≠ r.1 := fun hh => hnd.1 (hh ▸ hmem)
      simpa [alookup, hk] using h1
    · simp only [find_ticket_by_channel, ha, Option.some.injEq] at h
      subst h
      exact ⟨v0, by simp [alookup], ha⟩

theorem find_open_ticket_spec (l : List (Nat × List (Nat × Ticket))) (ch : Nat)
    (r : Nat × Ticket) (hnd : keysNodup l)
    (h : find_open_ticket_by_channel l ch = some r) :
    ∃ uts, alookup l r.1 = some uts ∧ (ch, r.2) ∈ uts ∧ r.2.closed = false := by
  induction l with
  | nil => simp [find_open_ticket_by_channel] at h
  | cons p rest ih =>
    obtain ⟨k0, v0⟩ := p
    simp only [keysNodup, List.map_cons, List.nodup_cons] at hnd
    rcases ha : v0.find? (fun q => q.1 == ch && !q.2.closed) with _ | q
    · simp only [find_open_ticket_by_channel, ha] at h
      obtain ⟨uts, h1, h2, h3⟩ := ih hnd.2 h
      refine ⟨uts, ?_, h2, h3⟩
      have hmem : r.1 ∈ rest.map Prod.fst := by
        by_contra hnm
        rw [(alookup_eq_none_iff rest r.1).mpr hnm] at h1
        cases h1
      have hk : k0 ≠ r.1 := fun hh => hnd.1 (hh ▸ hmem)
      simpa [alookup, hk] using h1
    · simp only [find_open_ticket_by_channel, ha, Option.some.injEq] at h
      subst h
      have hpred := List.find?_some ha
      have hq := List.mem_of_find?_eq_some ha
      simp only [Bool.and_eq_true, beq_iff_eq, Bool.not_eq_true'] at hpred
      refine ⟨v0, by simp [alookup], ?_, hpred.2⟩
      have : q = (ch, q.2) := by
        obtain ⟨q1, q2⟩ := q
        simp only at hpred
        simp [hpred.1]
      exact this ▸ hq

theorem find?_channel_none (uts : List (Nat × Ticket)) (ch : Nat)
    (h : alookup uts ch = none) :
    uts.find? (fun q => q.1 == ch && !q.2.closed) = none := by
  induction uts with
  | nil => rfl
  | cons q rest ih =>
    obtain ⟨k0, t0⟩ := q
    by_cases hk : k0 = ch
    · simp [alookup, hk] at h
    · simp only [alookup, hk, if_false] at h
      rw [List.find?_cons_of_neg, ih h]
      simp [hk]

theorem find?_channel_some (uts : List (Nat × Ticket)) (ch : Nat) (t : Ticket)
    (h : alookup uts ch = some t) (hopen : t.closed = false) :
    uts.find? (fun q => q.1 == ch && !q.2.closed) = some (ch, t) := by
  induction uts with
  | nil => simp [alookup] at h
  | cons q rest ih =>
    obtain ⟨k0, t0⟩ := q
    by_cases hk : k0 = ch
    · subst hk
      have h0 : t0 = t := by simpa [alookup] using h
      subst h0
      rw [List.find?_cons_of_pos]
      simp [hopen]
    · simp only [alookup, hk, if_false] at h
      rw [List.find?_cons_of_neg, ih h]
      simp [hk]

theorem find_open_of_alookup (l : List (Nat × List (Nat × Ticket))) (ch uid : Nat)
    (uts : List (Nat × Ticket)) (t : Ticket)
    (hu : alookup l uid = some uts) (ht : alookup uts ch = some t)
    (hopen : t.closed = false)
    (honly : ∀ p ∈ l, alookup p.2 ch = none ∨ p.1 = uid) :
    find_open_ticket_by_channel l ch = some (uid, t) := by
  induction l with
  | nil => simp [alookup] at hu
  | cons p rest ih =>
    obtain ⟨k0, v0⟩ := p
    by_cases hk : k0 = uid
    · subst hk
      have h0 : v0 = uts := by simpa [alookup] using hu
      subst h0
      simp [find_open_ticket_by_channel, find?_channel_some _ _ _ ht hopen]
    · simp only [alookup, hk, if_false] at hu
      have hnone : alookup v0 ch = none := by
        rcases honly (k0, v0) (List.mem_cons_self _ _) with hh | hh
        · exact hh
        · exact absurd hh hk
      simp only [find_open_ticket_by_channel, find?_channel_none _ _ hnone]
      exact ih hu (fun p hp => honly p (List.mem_cons_of_mem _ hp))

theorem find_ticket_of_alookup (l : List (Nat × List (Nat × Ticket))) (ch uid : Nat)
    (uts : List (Nat × Ticket)) (t : Ticket)
    (hu : alookup l uid = some uts) (ht : alookup uts ch = some t)
    (honly : ∀ p ∈ l, alookup p.2 ch = none ∨ p.1 = uid) :
    find_ticket_by_channel l ch = some (uid, t) := by
  induction l with
  | nil => simp [alookup] at hu
  | cons p rest ih =>
    obtain ⟨k0, v0⟩ := p
    by_cases hk : k0 = uid
    · subst hk
      have h0 : v0 = uts := by simpa [alookup] using hu
      subst h0
      simp [find_ticket_by_channel, ht]
    · simp only [alookup, hk, if_false] at hu
      have hnone : alookup v0 ch = none := by
        rcases honly (k0, v0) (List.mem_cons_self _ _) with hh | hh
        · exact hh
        · exact absurd hh hk
      simp only [find_ticket_by_channel, hnone]
      exact ih hu (fun p hp => honly p (List.mem_cons_of_mem _ hp))

/-! ## Invariant preservation over the step relation -/

def Inv (s : StoreState) : Prop := WF s ∧ TicketBound s

theorem Inv_initial : Inv initialState := by
  constructor
  · exact ⟨List.nodup_nil, by intro p hp; simp [initialState] at hp⟩
  · intro u
    simp [initialState, userTickets, alookup, TICKET_LIMIT_PER_USER]

theorem Inv_other_fields (s : StoreState) (bl : List Nat)
    (logs : List (Nat × List ClosedRecord)) (tw : List (Nat × Nat)) (h : Inv s) :
    Inv ⟨s.active_tickets, bl, logs, tw⟩ :=
  ⟨⟨h.1.1, h.1.2⟩, h.2⟩

theorem Inv_set_ticket_found (s : StoreState) (uid cid : Nat) (t : Ticket)
    (h : Inv s) (hsome : (alookup (userTickets s uid) cid).isSome) :
    Inv (set_ticket s uid cid t) :=
  ⟨WF_set_ticket _ _ _ _ h.1, TicketBound_set_ticket _ _ _ _ hsome h.2⟩

theorem Inv_close_store_update (s : StoreState) (uid cid : Nat)
    (mk : Ticket → ClosedRecord) (h : Inv s) :
    Inv (close_store_update s uid cid mk) :=
  ⟨WF_close_store_update _ _ _ _ h.1, TicketBound_close_store_update _ _ _ _ h.2⟩

theorem create_ticket_state (s : StoreState) (u : Nat) (cat : String) (ch : Nat)
    (chn : String) (now : Nat) (f : CreateFaults) :
    (create_ticket s u cat ch chn now f).1 = s ∨
    ((create_ticket s u cat ch chn now f).1 = set_ticket s u ch (new_ticket chn cat now)
      ∧ (userTickets s u).length = 0) := by
  unfold create_ticket
  by_cases h1 : (alookup s.active_tickets u).isSome
      ∧ TICKET_LIMIT_PER_USER ≤ (userTickets s u).length
  · simp [h1]
  · by_cases h2 : u ∈ s.blacklisted_users
    · simp [h1, h2]
    · have hlen : (userTickets s u).length = 0 := by
        rcases Nat.eq_zero_or_pos (userTickets s u).length with hz | hp
        · exact hz
        · exfalso
          apply h1
          constructor
          · apply alookup_isSome_of_getD_ne_nil
            intro hnil
            rw [userTickets] at hp
            rw [hnil] at hp
            simp at hp
          · simpa [TICKET_LIMIT_PER_USER] using hp
      by_cases h3 : f.channelCreate
      · simp [h1, h2, h3]
      · right
        refine ⟨?_, hlen⟩
        by_cases h4 : f.controlMessage <;> by_cases h5 : f.userConfirm <;>
          by_cases h6 : f.auditLog <;>
          simp [h1, h2, h3, h4, h5, h6, set_ticket]

theorem Inv_create (s : StoreState) (u : Nat) (cat : String) (ch : Nat)
    (chn : String) (now : Nat) (f : CreateFaults) (h : Inv s) :
    Inv (create_ticket s u cat ch chn now f).1 := by
  rcases create_ticket_state s u cat ch chn now f with h1 | ⟨h1, hlen⟩
  · rw [h1]; exact h
  · rw [h1]
    refine ⟨WF_set_ticket _ _ _ _ h.1, ?_⟩
    have hnil : userTickets s u = [] := List.length_eq_zero.mp hlen
    intro v
    by_cases hv : v = u
    · subst hv
      rw [userTickets_set_ticket_self, hnil]
      simp [aupdate, TICKET_LIMIT_PER_USER]
    · rw [userTickets_set_ticket_ne _ _ _ _ _ hv]
      exact h.2 v

theorem actually_close_state (s : StoreState) (uid cid : Nat) (chn un : String)
    (closer now : Nat) (hist : List RawMessage) (f : CloseFaults) :
    (actually_close_ticket s uid cid chn un closer now hist f).1 = s ∨
    (actually_close_ticket s uid cid chn un closer now hist f).1 =
      close_store_update s uid cid
        (fun t => mkClosedRecord chn t now (toString closer)) := by
  unfold actually_close_ticket
  by_cases h1 : f.history
  · simp [h1]
  · by_cases h2 : f.channelMsg
    · simp [h1, h2]
    · by_cases h3 : f.audit
      · simp [h1, h2, h3]
      · by_cases h4 : f.delete <;> simp [h1, h2, h3, h4]

theorem Inv_close (s : StoreState) (uid cid : Nat) (chn un : String)
    (closer now : Nat) (hist : List RawMessage) (f : CloseFaults) (h : Inv s) :
    Inv (actually_close_ticket s uid cid chn un closer now hist f).1 := by
  rcases actually_close_state s uid cid chn un closer now hist f with h1 | h1 <;> rw [h1]
  · exact h
  · exact Inv_close_store_update _ _ _ _ h

theorem archive_state (s : StoreState) (uid cid : Nat) (fault : Bool) :
    (archive_button s uid cid fault).1 = s ∨
    ∃ uts t, alookup s.active_tickets uid = some uts ∧ alookup uts cid = some t ∧
      (archive_button s uid cid fault).1 = set_ticket s uid cid { t with closed := true } := by
  unfold archive_button
  by_cases h1 : fault
  · simp [h1]
  · rcases hu : alookup s.active_tickets uid with _ | uts
    · simp [h1, hu]
    · rcases ht : alookup uts cid with _ | t
      · simp [h1, hu, ht]
      · right
        refine ⟨uts, t, rfl, ht, ?_⟩
        simp [h1, hu, ht, set_ticket, userTickets]

theorem Inv_archive (s : StoreState) (uid cid : Nat) (fault : Bool) (h : Inv s) :
    Inv (archive_button s uid cid fault).1 := by
  rcases archive_state s uid cid fault with h1 | ⟨uts, t, hu, ht, h1⟩ <;> rw [h1]
  · exact h
  · refine Inv_set_ticket_found _ _ _ _ h ?_
    rw [userTickets_of_alookup s uid uts hu, ht]
    simp

theorem transfer_state (s : StoreState) (uid cid : Nat) (cat : String) (fault : Bool) :
    (transfer_ticket s uid cid cat fault).1 = s ∨
    ∃ uts t, alookup s.active_tickets uid = some uts ∧ alookup uts cid = some t ∧
      (transfer_ticket s uid cid cat fault).1 = set_ticket s uid cid { t with category := cat } := by
  unfold transfer_ticket
  by_cases h1 : fault
  · simp [h1]
  · rcases hu : alookup s.active_tickets uid with _ | uts
    · simp [h1, hu]
    · rcases ht : alookup uts cid with _ | t
      · simp [h1, hu, ht]
      · right
        refine ⟨uts, t, rfl, ht, ?_⟩
        simp [h1, hu, ht, set_ticket, userTickets]

theorem Inv_transfer (s : StoreState) (uid cid : Nat) (cat : String) (fault : Bool)
    (h : Inv s) : Inv (transfer_ticket s uid cid cat fault).1 := by
  rcases transfer_state s uid cid cat fault with h1 | ⟨uts, t, hu, ht, h1⟩ <;> rw [h1]
  · exact h
  · refine Inv_set_ticket_found _ _ _ _ h ?_
    rw [userTickets_of_alookup s uid uts hu, ht]
    simp

theorem Inv_welcome (s : StoreState) (u now : Nat) (fault : Bool) (h : Inv s) :
    Inv (send_welcome_message s u now fault).1 := by
  unfold send_welcome_message
  rcases hl : alookup s.user_welcome_timestamps u with _ | last
  · by_cases h2 : fault <;> simp only [h2, if_true, if_false] <;> exact Inv_other_fields _ _ _ _ h
  · by_cases h1 : now - last < WELCOME_MESSAGE_COOLDOWN
    · simp only [h1, if_true]
      exact h
    · by_cases h2 : fault <;> simp only [h1, h2, if_true, if_false] <;>
        exact Inv_other_fields _ _ _ _ h

theorem set_typing_state (s : StoreState) (uid cid : Nat) (staffSide val : Bool) :
    set_typing s uid cid staffSide val = s ∨
    ∃ uts t, alookup s.active_tickets uid = some uts ∧ alookup uts cid = some t ∧
      set_typing s uid cid staffSide val =
        set_ticket s uid cid
          (if staffSide then { t with staff_typing := val } else { t with user_typing := val }) := by
  unfold set_typing
  rcases hu : alookup s.active_tickets uid with _ | uts
  · simp
  · rcases ht : alookup uts cid with _ | t
    · simp [ht]
    · right
      refine ⟨uts, t, rfl, ht, ?_⟩
      simp [ht]

theorem Inv_typing (s : StoreState) (uid cid : Nat) (staffSide val : Bool) (h : Inv s) :
    Inv (set_typing s uid cid staffSide val) := by
  rcases set_typing_state s uid cid staffSide val with h1 | ⟨uts, t, hu, ht, h1⟩ <;> rw [h1]
  · exact h
  · refine Inv_set_ticket_found _ _ _ _ h ?_
    rw [userTickets_of_alookup s uid uts hu, ht]
    simp

theorem Inv_forward (s : StoreState) (author : Nat) (content : String)
    (atts : List String) (ch now cmid umid : Nat) (f : ForwardFaults) (h : Inv s) :
    Inv (forward_to_channel s author content atts ch now cmid umid f).1 := by
  unfold forward_to_channel
  rcases hf : find_ticket_by_channel s.active_tickets ch with _ | r
  · exact Inv_welcome s author now f.welcomeSend h
  · obtain ⟨uts, hu, ht⟩ := find_ticket_spec _ _ _ h.1.1 hf
    have hs1 : Inv (set_ticket s r.1 ch { r.2 with last_activity := now }) := by
      refine Inv_set_ticket_found _ _ _ _ h ?_
      rw [userTickets_of_alookup s r.1 uts hu, ht]
      simp
    by_cases h1 : f.send
    · simp only [h1, if_true]
      exact hs1
    · have hs2 : (alookup (userTickets (set_ticket s r.1 ch { r.2 with last_activity := now }) r.1) ch).isSome := by
        rw [userTickets_set_ticket_self, alookup_aupdate_self]
        simp
      by_cases h2 : f.reactions <;> simp only [h1, h2, if_true, if_false] <;>
        exact Inv_set_ticket_found _ _ _ _ hs1 hs2

theorem Inv_staff_relay (s : StoreState) (ch author : Nat) (content : String)
    (atts : List String) (now : Nat) (fault : Bool) (h : Inv s) :
    Inv (on_message_staff s ch author content atts now fault).1 := by
  unfold on_message_staff
  rcases hf : find_open_ticket_by_channel s.active_tickets ch with _ | r
  · exact h
  · obtain ⟨uts, hu, hmem, _⟩ := find_open_ticket_spec _ _ _ h.1.1 hf
    have hsome : (alookup (userTickets s r.1) ch).isSome := by
      rw [userTickets_of_alookup s r.1 uts hu]
      exact alookup_isSome_of_mem _ _ _ hmem
    by_cases h1 : fault <;> simp only [h1, if_true, if_false] <;>
      exact Inv_set_ticket_found _ _ _ _ h hsome

theorem Inv_quick_reply (s : StoreState) (ch author : Nat) (content : String)
    (now : Nat) (fault : Bool) (h : Inv s) :
    Inv (reply_modal_submit s ch author content now fault).1 := by
  unfold reply_modal_submit
  rcases hf : find_open_ticket_by_channel s.active_tickets ch with _ | r
  · exact h
  · obtain ⟨uts, hu, hmem, _⟩ := find_open_ticket_spec _ _ _ h.1.1 hf
    have hsome : (alookup (userTickets s r.1) ch).isSome := by
      rw [userTickets_of_alookup s r.1 uts hu]
      exact alookup_isSome_of_mem _ _ _ hmem
    by_cases h1 : fault <;> simp only [h1, if_true, if_false]
    · exact h
    · exact Inv_set_ticket_found _ _ _ _ h hsome

theorem auto_close_one_state (names : Nat → String) (history : Nat → List RawMessage)
    (f : SweepFaults) (now : Nat) (s : StoreState) (uid cid : Nat) :
    (auto_close_one names history f now s uid cid).1 = s ∨
    (auto_close_one names history f now s uid cid).1 =
      close_store_update s uid cid (fun t0 => autoCloseRecord t0 now) := by
  unfold auto_close_one
  rcases hu : alookup s.active_tickets uid with _ | uts
  · simp
  · rcases ht : alookup uts cid with _ | t
    · simp [ht]
    · by_cases hp : f.pre cid <;> simp [ht, hp]

theorem Inv_auto_close_one (names : Nat → String) (history : Nat → List RawMessage)
    (f : SweepFaults) (now : Nat) (s : StoreState) (uid cid : Nat) (h : Inv s) :
    Inv (auto_close_one names history f now s uid cid).1 := by
  rcases auto_close_one_state names history f now s uid cid with h1 | h1 <;> rw [h1]
  · exact h
  · exact Inv_close_store_update _ _ _ _ h

theorem Inv_sweep_go (names : Nat → String) (history : Nat → List RawMessage)
    (f : SweepFaults) (now : Nat) (l : List (Nat × Nat)) :
    ∀ acc : StoreState × List Effect, Inv acc.1 →
      Inv (sweep_go names history f now l acc).1 := by
  induction l with
  | nil => intro acc h; exact h
  | cons p rest ih =>
    intro acc h
    simp only [sweep_go]
    exact ih _ (Inv_auto_close_one names history f now acc.1 p.1 p.2 h)

theorem Inv_sweep (names : Nat → String) (history : Nat → List RawMessage)
    (f : SweepFaults) (now : Nat) (s : StoreState) (h : Inv s) :
    Inv (auto_close_tickets names history f now s).1 :=
  Inv_sweep_go names history f now _ (s, []) h

theorem Inv_step (s s' : StoreState) (hstep : Step s s') (h : Inv s) : Inv s' := by
  cases hstep with
  | create u cat ch chn now f => exact Inv_create s u cat ch chn now f h
  | close uid cid chn un closer now hist f => exact Inv_close s uid cid chn un closer now hist f h
  | archive uid cid fault => exact Inv_archive s uid cid fault h
  | transfer uid cid cat fault => exact Inv_transfer s uid cid cat fault h
  | welcome u now fault => exact Inv_welcome s u now fault h
  | forward author content atts ch now cmid umid f =>
      exact Inv_forward s author content atts ch now cmid umid f h
  | staffRelay ch author content atts now fault =>
      exact Inv_staff_relay s ch author content atts now fault h
  | quickReply ch author content now fault =>
      exact Inv_quick_reply s ch author content now fault h
  | typing uid cid staffSide val => exact Inv_typing s uid cid staffSide val h
  | sweep names history f now => exact Inv_sweep names history f now s h
  | blacklistAdd u => exact Inv_other_fields _ _ _ _ h
  | blacklistRemove u => exact Inv_other_fields _ _ _ _ h
  | restore bl logs tw => exact Inv_other_fields _ _ _ _ h

theorem Inv_reachable (s : StoreState) (h : Reachable s) : Inv s := by
  induction h with
  | refl => exact Inv_initial
  | tail _ hstep ih => exact Inv_step _ _ hstep ih

/-! ## Claim C1 -/

theorem create_ticket_result_limit (s : StoreState) (u : Nat) (cat : String)
    (ch : Nat) (chn : String) (now : Nat) (f : CreateFaults) :
    (create_ticket s u cat ch chn now f).2.1 = CreateResult.limitExceeded ↔
      TICKET_LIMIT_PER_USER ≤ (userTickets s u).length := by
  unfold create_ticket
  by_cases hc : (alookup s.active_tickets u).isSome
      ∧ TICKET_LIMIT_PER_USER ≤ (userTickets s u).length
  · simp [hc, hc.2]
  · have hlen : ¬ TICKET_LIMIT_PER_USER ≤ (userTickets s u).length := by
      intro hl
      apply hc
      refine ⟨?_, hl⟩
      apply alookup_isSome_of_getD_ne_nil
      intro hnil
      rw [userTickets, hnil] at hl
      simp [TICKET_LIMIT_PER_USER] at hl
    rw [if_neg hc]
    by_cases h2 : u ∈ s.blacklisted_users
    · simp [h2, hlen]
    · by_cases h3 : f.channelCreate
      · simp [h2, h3, hlen]
      · by_cases h4 : f.controlMessage <;> by_cases h5 : f.userConfirm <;>
          by_cases h6 : f.auditLog <;> simp [h2, h3, h4, h5, h6, hlen]

/-- C1: in every reachable state every user's active-ticket count is at most
TICKET_LIMIT_PER_USER, and create_ticket returns the limit-exceeded
rejection exactly when the caller's active-ticket count has already reached
the cap (so admitting the new ticket would break the bound). -/
theorem C1_ticket_limit (s : StoreState) (h : Reachable s) :
    (∀ u, (userTickets s u).length ≤ TICKET_LIMIT_PER_USER) ∧
    (∀ (u : Nat) (cat : String) (ch : Nat) (chn : String) (now : Nat) (f : CreateFaults),
      (create_ticket s u cat ch chn now f).2.1 = CreateResult.limitExceeded ↔
        TICKET_LIMIT_PER_USER ≤ (userTickets s u).length) :=
  ⟨(Inv_reachable s h).2,
   fun u cat ch chn now f => create_ticket_result_limit s u cat ch chn now f⟩

/-- Witness for C1 at the state reached by one successful ticket creation. -/
theorem C1_ticket_limit_witness :
    (∀ u, (userTickets (create_ticket initialState 7 "Support" 100 "chan" 0 CreateFaults.none').1 u).length
        ≤ TICKET_LIMIT_PER_USER) ∧
    (∀ (u : Nat) (cat : String) (ch : Nat) (chn : String) (now : Nat) (f : CreateFaults),
      (create_ticket (create_ticket initialState 7 "Support" 100 "chan" 0 CreateFaults.none').1
          u cat ch chn now f).2.1 = CreateResult.limitExceeded ↔
        TICKET_LIMIT_PER_USER
          ≤ (userTickets (create_ticket initialState 7 "Support" 100 "chan" 0 CreateFaults.none').1 u).length) :=
  C1_ticket_limit _
    (Relation.ReflTransGen.single
      (Step.create initialState 7 "Support" 100 "chan" 0 CreateFaults.none'))

/-! ## Claim C9 -/

/-- C9: the limit check at line 90 runs before the blacklist check at line
94, so a blacklisted user already at the cap receives the limit-exceeded
rejection, and the blacklist rejection is only ever returned to blacklisted
users strictly below the cap. -/
theorem C9_limit_check_before_blacklist (s : StoreState) (u : Nat) (cat : String)
    (ch : Nat) (chn : String) (now : Nat) (f : CreateFaults)
    (hb : u ∈ s.blacklisted_users) :
    (TICKET_LIMIT_PER_USER ≤ (userTickets s u).length →
      (create_ticket s u cat ch chn now f).2.1 = CreateResult.limitExceeded) ∧
    ((create_ticket s u cat ch chn now f).2.1 = CreateResult.blacklisted →
      (userTickets s u).length < TICKET_LIMIT_PER_USER) := by
  constructor
  · intro hlen
    exact (create_ticket_result_limit s u cat ch chn now f).mpr hlen
  · intro hres
    by_contra hge
    push_neg at hge
    have hlim := (create_ticket_result_limit s u cat ch chn now f).mpr hge
    rw [hres] at hlim
    cases hlim

/-- Witness for C9: user 5 is blacklisted and at the cap; the limit
rejection wins. -/
theorem C9_witness :
    (TICKET_LIMIT_PER_USER ≤ (userTickets exStateB 5).length →
      (create_ticket exStateB 5 "Support" 60 "chan" 1 CreateFaults.none').2.1
        = CreateResult.limitExceeded) ∧
    ((create_ticket exStateB 5 "Support" 60 "chan" 1 CreateFaults.none').2.1
        = CreateResult.blacklisted →
      (userTickets exStateB 5).length < TICKET_LIMIT_PER_USER) :=
  C9_limit_check_before_blacklist exStateB 5 "Support" 60 "chan" 1 CreateFaults.none'
    (by decide)

/-! ## Claim C2 -/

/-- C2 (failing input): the user-confirmation DM raises after the store
insert.  create_ticket returns the generic error string, yet the freshly
inserted ticket is still reachable in the active index by owner and by
channel - the except handler at line 265 performs no rollback, contradicting
the spec's must-complete-or-compensate requirement. -/
theorem C2_no_rollback_on_transport_failure :
    ((create_ticket initialState 7 "Support" 100 "chan" 5 ⟨false, false, true, false⟩).2.1
        = CreateResult.transportError) ∧
    (alookup (userTickets (create_ticket initialState 7 "Support" 100 "chan" 5
        ⟨false, false, true, false⟩).1 7) 100 = some (new_ticket "chan" "Support" 5)) ∧
    (find_ticket_by_channel (create_ticket initialState 7 "Support" 100 "chan" 5
        ⟨false, false, true, false⟩).1.active_tickets 100 = some (7, new_ticket "chan" "Support" 5)) :=
  ⟨rfl, rfl, rfl⟩

/-! ## Claim C7 -/

/-- C7: the welcome throttle.  For a user with no recorded greeting, the
first attempt sends and records its timestamp; a second attempt less than
the cooldown later is suppressed and returns the state unchanged (exactly
one send in total); a second attempt more than the cooldown later sends
again; and every successful send stores the send time as the user's
last-greeted timestamp. -/
theorem C7_welcome_throttle (s : StoreState) (u t1 t2 : Nat)
    (hnone : alookup s.user_welcome_timestamps u = none) :
    ((send_welcome_message s u t1 false).2 = [Effect.sendWelcome u] ∧
      alookup (send_welcome_message s u t1 false).1.user_welcome_timestamps u = some t1) ∧
    (t2 - t1 < WELCOME_MESSAGE_COOLDOWN →
      send_welcome_message (send_welcome_message s u t1 false).1 u t2 false
        = ((send_welcome_message s u t1 false).1, [])) ∧
    (WELCOME_MESSAGE_COOLDOWN < t2 - t1 →
      (send_welcome_message (send_welcome_message s u t1 false).1 u t2 false).2
          = [Effect.sendWelcome u] ∧
      alookup (send_welcome_message (send_welcome_message s u t1 false).1 u t2 false).1.user_welcome_timestamps u
          = some t2) := by
  have h1 : send_welcome_message s u t1 false =
      ({ s with user_welcome_timestamps := aupdate s.user_welcome_timestamps u t1 },
        [Effect.sendWelcome u]) := by
    simp [send_welcome_message, hnone]
  refine ⟨⟨by rw [h1], by rw [h1]; exact alookup_aupdate_self _ _ _⟩, ?_, ?_⟩
  · intro hlt
    rw [h1]
    simp only [send_welcome_message, alookup_aupdate_self]
    rw [if_pos hlt]
  · intro hgt
    have hnlt : ¬ t2 - t1 < WELCOME_MESSAGE_COOLDOWN := Nat.not_lt.mpr (Nat.le_of_lt hgt)
    rw [h1]
    constructor
    · simp only [send_welcome_message, alookup_aupdate_self]
      rw [if_neg hnlt]
      rfl
    · simp only [send_welcome_message, alookup_aupdate_self]
      rw [if_neg hnlt]
      exact alookup_aupdate_self _ _ _

/-- Witness for C7: user 3 greeted at time 0; a retry at 100 is suppressed,
a retry at 400 sends again. -/
theorem C7_witness :
    (send_welcome_message (send_welcome_message initialState 3 0 false).1 3 100 false
        = ((send_welcome_message initialState 3 0 false).1, [])) ∧
    (send_welcome_message (send_welcome_message initialState 3 0 false).1 3 400 false).2
        = [Effect.sendWelcome 3] :=
  ⟨(C7_welcome_throttle initialState 3 0 100 rfl).2.1 (by decide),
   ((C7_welcome_throttle initialState 3 0 400 rfl).2.2 (by decide)).1⟩

/-! ## Claim C10 -/

/-- C10: for a DM from a user holding more than one ticket, carrying a
message reference (a reply), the router skips the selection prompt and
forwards to the first non-closed ticket in the owner's dict iteration order
- the quantification over `ref` shows the outcome does not depend on which
ticket the replied-to message belongs to, since the code only tests the
truthiness of message.reference. -/
theorem C10_reply_routing (s : StoreState) (author : Nat)
    (uts : List (Nat × Ticket)) (cid : Nat)
    (hb : author ∉ s.blacklisted_users)
    (hu : alookup s.active_tickets author = some uts)
    (hlen : 1 < uts.length)
    (hfirst : firstOpenTicket uts = some cid) :
    ∀ ref : Nat, on_message_dm_route s author (some ref) = RouteAction.forwarded cid := by
  intro ref
  unfold on_message_dm_route
  rw [if_neg hb, hu]
  simp [hfirst]

/-- Witness for C10: user 5 holds a closed ticket (channel 50) and an open
one (channel 60); a reply that references channel 50 is still forwarded to
channel 60, the first non-closed ticket in iteration order. -/
theorem C10_witness :
    on_message_dm_route exState2 5 (some 50) = RouteAction.forwarded 60 :=
  C10_reply_routing exState2 5 [(50, exTicketClosed), (60, exTicket)] 60
    (by decide) rfl (by decide) rfl 50

/-! ## Claim C5 -/

theorem transcript_foldl_factor (msgs : List RawMessage) (h : String) :
    msgs.foldl (fun acc m => if skipMessage m then acc else acc ++ renderMessage m) h
      = h ++ transcriptBody msgs := by
  unfold transcriptBody
  induction msgs generalizing h with
  | nil => simp [String.append_empty]
  | cons m rest ih =>
    simp only [List.foldl_cons]
    by_cases hs : skipMessage m
    · simp only [hs, if_true]
      exact ih h
    · simp only [hs, Bool.false_eq_true, if_false]
      rw [ih, ih ("" ++ renderMessage m), String.empty_append, String.append_assoc]

/-- C5 counterexample: create_transcript is not a function of the message
log alone - its Created-at header line embeds the invocation time, so the
same (empty) log rendered at times 0 and 1 yields different bytes. -/
theorem C5_transcript_time_dependent :
    create_transcript "c" "u" 1 0 [] ≠ create_transcript "c" "u" 1 1 [] := by
  decide

/-- C5 amended: the rendered message body is a function of the message log
alone; a transcript is the three-line header (whose Created-at line renders
the invocation time) followed by that body, so two invocations over the
same log differ at most in the header line, and two invocations at the same
time are byte-identical. -/
theorem C5_transcript_determinism_amended (ch un : String) (uid : Nat)
    (msgs : List RawMessage) (t1 t2 : Nat) :
    create_transcript ch un uid t1 msgs
        = transcriptHeader ch un uid t1 ++ transcriptBody msgs ∧
    create_transcript ch un uid t2 msgs
        = transcriptHeader ch un uid t2 ++ transcriptBody msgs ∧
    (t1 = t2 → create_transcript ch un uid t1 msgs = create_transcript ch un uid t2 msgs) := by
  refine ⟨transcript_foldl_factor msgs _, transcript_foldl_factor msgs _, ?_⟩
  intro h
  rw [h]

/-- Witness for C5 (amended): concrete instantiation, including the
same-time case. -/
theorem C5_witness :
    (create_transcript "c" "u" 1 0 []
        = transcriptHeader "c" "u" 1 0 ++ transcriptBody []) ∧
    create_transcript "c" "u" 1 5 [] = create_transcript "c" "u" 1 5 [] :=
  ⟨(C5_transcript_determinism_amended "c" "u" 1 [] 0 0).1,
   (C5_transcript_determinism_amended "c" "u" 1 [] 5 5).2.2 rfl⟩

/-! ## Further association-list and close lemmas (for C3, C4, C6, C8) -/

theorem mem_aerase_ne {α : Type} (l : List (Nat × α)) (k : Nat) (p : Nat × α)
    (h : p ∈ aerase l k) : p ∈ l ∧ p.1 ≠ k := by
  induction l with
  | nil => simp [aerase] at h
  | cons q rest ih =>
    obtain ⟨k0, v0⟩ := q
    by_cases hk : k0 = k
    · simp only [aerase, hk, if_pos rfl] at h
      obtain ⟨h1, h2⟩ := ih h
      exact ⟨List.mem_cons_of_mem _ h1, h2⟩
    · simp only [aerase, hk, if_false] at h
      rcases List.mem_cons.mp h with h1 | h1
      · subst h1
        exact ⟨List.mem_cons_self _ _, hk⟩
      · obtain ⟨h1', h2⟩ := ih h1
        exact ⟨List.mem_cons_of_mem _ h1', h2⟩

theorem mem_aupdate_nodup {α : Type} (l : List (Nat × α)) (k : Nat) (v : α)
    (hnd : keysNodup l) (p : Nat × α) (h : p ∈ aupdate l k v) :
    (p ∈ l ∧ p.1 ≠ k) ∨ p = (k, v) := by
  induction l with
  | nil =>
    simp [aupdate] at h
    right
    exact h
  | cons q rest ih =>
    obtain ⟨k0, v0⟩ := q
    simp only [keysNodup, List.map_cons, List.nodup_cons] at hnd
    by_cases hk : k0 = k
    · subst hk
      simp only [aupdate, if_pos rfl] at h
      rcases List.mem_cons.mp h with h1 | h1
      · right; exact h1
      · left
        refine ⟨List.mem_cons_of_mem _ h1, ?_⟩
        intro hpk
        apply hnd.1
        rw [← hpk]
        exact List.mem_map_of_mem Prod.fst h1
    · simp only [aupdate, hk, if_false] at h
      rcases List.mem_cons.mp h with h1 | h1
      · subst h1
        exact Or.inl ⟨List.mem_cons_self _ _, hk⟩
      · rcases ih hnd.2 h1 with ⟨h2, h3⟩ | h2
        · exact Or.inl ⟨List.mem_cons_of_mem _ h2, h3⟩
        · exact Or.inr h2

theorem find_ticket_by_channel_none (l : List (Nat × List (Nat × Ticket))) (ch : Nat)
    (h : ∀ p ∈ l, alookup p.2 ch = none) :
    find_ticket_by_channel l ch = none := by
  induction l with
  | nil => rfl
  | cons p rest ih =>
    have hp := h p (List.mem_cons_self _ _)
    simp only [find_ticket_by_channel, hp]
    exact ih (fun q hq => h q (List.mem_cons_of_mem _ hq))

theorem close_store_update_channel_gone (s : StoreState) (uid cid : Nat)
    (mk : Ticket → ClosedRecord) (uts : List (Nat × Ticket)) (t : Ticket)
    (hndO : keysNodup s.active_tickets)
    (hu : alookup s.active_tickets uid = some uts)
    (ht : alookup uts cid = some t)
    (honly : ∀ p ∈ s.active_tickets, alookup p.2 cid = none ∨ p.1 = uid) :
    find_ticket_by_channel (close_store_update s uid cid mk).active_tickets cid = none := by
  rw [close_store_update_eq s uid cid mk uts t hu ht]
  by_cases hre : (aerase uts cid).isEmpty
  · show find_ticket_by_channel
      (if (aerase uts cid).isEmpty then aerase s.active_tickets uid
        else aupdate s.active_tickets uid (aerase uts cid)) cid = none
    rw [if_pos hre]
    apply find_ticket_by_channel_none
    intro p hp
    obtain ⟨hpl, hpne⟩ := mem_aerase_ne _ _ _ hp
    rcases honly p hpl with hn | he
    · exact hn
    · exact absurd he hpne
  · show find_ticket_by_channel
      (if (aerase uts cid).isEmpty then aerase s.active_tickets uid
        else aupdate s.active_tickets uid (aerase uts cid)) cid = none
    rw [if_neg hre]
    apply find_ticket_by_channel_none
    intro p hp
    rcases mem_aupdate_nodup _ _ _ hndO _ hp with ⟨hpl, hpne⟩ | hpe
    · rcases honly p hpl with hn | he
      · exact hn
      · exact absurd he hpne
    · rw [hpe]
      exact alookup_aerase_self _ _

theorem actually_close_state_of_sent (s : StoreState) (uid cid : Nat)
    (chn un : String) (closer now : Nat) (hist : List RawMessage) (f : CloseFaults)
    (hf1 : f.history = false) (hf2 : f.channelMsg = false) :
    (actually_close_ticket s uid cid chn un closer now hist f).1 =
      close_store_update s uid cid
        (fun t => mkClosedRecord chn t now (toString closer)) := by
  unfold actually_close_ticket
  by_cases h3 : f.audit <;> by_cases h4 : f.delete <;> simp [hf1, hf2, h3, h4]

theorem actually_close_effects_ne_nil (s : StoreState) (uid cid : Nat)
    (chn un : String) (closer now : Nat) (hist : List RawMessage) (f : CloseFaults) :
    (actually_close_ticket s uid cid chn un closer now hist f).2.2 ≠ [] := by
  unfold actually_close_ticket
  by_cases h1 : f.history <;> by_cases h2 : f.channelMsg <;> by_cases h3 : f.dm <;>
    by_cases h4 : f.audit <;> by_cases h5 : f.delete <;> simp [h1, h2, h3, h4, h5]

/-! ## Claim C3 -/

/-- C3 counterexample: closing the same ticket twice, fault-free.  The
second close does not fail with a NotFound error - it reports success - and
it performs six further transport side effects (transcript, closing embed,
user DM, audit entry, success reply, channel delete), so it is not a
no-op on the side-effect level, only on the store. -/
theorem C3_second_close_reports_success :
    ((actually_close_ticket
        (actually_close_ticket exState1 5 50 "chan-a" "alice" 9 100 [] CloseFaults.none').1
        5 50 "chan-a" "alice" 9 200 [] CloseFaults.none').2.1 = CloseResult.closedOk) ∧
    ((actually_close_ticket
        (actually_close_ticket exState1 5 50 "chan-a" "alice" 9 100 [] CloseFaults.none').1
        5 50 "chan-a" "alice" 9 200 [] CloseFaults.none').2.2).length = 6 :=
  ⟨rfl, rfl⟩

/-- C3 amended: once a close reaches the store (transcript and closing
embed sent), the ticket can no longer be found by its channel id, and any
second close of the same ticket makes no store mutation - but it is not
rejected with NotFound: it re-runs the close side effects (its effect trace
is never empty). -/
theorem C3_close_amended (s : StoreState) (uid cid : Nat) (chn un : String)
    (closer now : Nat) (hist : List RawMessage) (f : CloseFaults)
    (uts : List (Nat × Ticket)) (t : Ticket)
    (hndO : keysNodup s.active_tickets)
    (hu : alookup s.active_tickets uid = some uts)
    (ht : alookup uts cid = some t)
    (honly : ∀ p ∈ s.active_tickets, alookup p.2 cid = none ∨ p.1 = uid)
    (hf1 : f.history = false) (hf2 : f.channelMsg = false) :
    find_ticket_by_channel
        (actually_close_ticket s uid cid chn un closer now hist f).1.active_tickets cid = none ∧
    (∀ (closer2 now2 : Nat) (hist2 : List RawMessage) (f2 : CloseFaults),
      (actually_close_ticket (actually_close_ticket s uid cid chn un closer now hist f).1
          uid cid chn un closer2 now2 hist2 f2).1
        = (actually_close_ticket s uid cid chn un closer now hist f).1 ∧
      (actually_close_ticket (actually_close_ticket s uid cid chn un closer now hist f).1
          uid cid chn un closer2 now2 hist2 f2).2.2 ≠ []) := by
  have hst := actually_close_state_of_sent s uid cid chn un closer now hist f hf1 hf2
  constructor
  · rw [hst]
    exact close_store_update_channel_gone s uid cid _ uts t hndO hu ht honly
  · intro closer2 now2 hist2 f2
    have hgone : alookup
        (userTickets (actually_close_ticket s uid cid chn un closer now hist f).1 uid) cid
          = none := by
      rw [hst]
      exact close_store_update_lookup_self _ _ _ _
    constructor
    · rcases actually_close_state (actually_close_ticket s uid cid chn un closer now hist f).1
          uid cid chn un closer2 now2 hist2 f2 with h1 | h1
      · exact h1
      · rw [h1]
        exact close_store_update_eq_self _ _ _ _ hgone
    · exact actually_close_effects_ne_nil _ _ _ _ _ _ _ _ _

/-- Witness for C3 (amended) on the one-ticket state. -/
theorem C3_witness :
    find_ticket_by_channel
        (actually_close_ticket exState1 5 50 "chan-a" "alice" 9 100 [] CloseFaults.none').1.active_tickets 50
      = none ∧
    ((actually_close_ticket
        (actually_close_ticket exState1 5 50 "chan-a" "alice" 9 100 [] CloseFaults.none').1
        5 50 "chan-a" "alice" 9 200 [] CloseFaults.none').1
      = (actually_close_ticket exState1 5 50 "chan-a" "alice" 9 100 [] CloseFaults.none').1 ∧
    (actually_close_ticket
        (actually_close_ticket exState1 5 50 "chan-a" "alice" 9 100 [] CloseFaults.none').1
        5 50 "chan-a" "alice" 9 200 [] CloseFaults.none').2.2 ≠ []) :=
  ⟨(C3_close_amended exState1 5 50 "chan-a" "alice" 9 100 [] CloseFaults.none'
      [(50, exTicket)] exTicket (by unfold keysNodup; decide) rfl rfl (by decide) rfl rfl).1,
   (C3_close_amended exState1 5 50 "chan-a" "alice" 9 100 [] CloseFaults.none'
      [(50, exTicket)] exTicket (by unfold keysNodup; decide) rfl rfl (by decide) rfl rfl).2
      9 200 [] CloseFaults.none'⟩

/-! ## Claim C4 -/

/-- C4 counterexample: the Archive button sets the closed flag but leaves
the ticket in the active index and appends nothing to the closed-ticket
log, so a closed-flagged ticket is simultaneously reachable in the active
index while absent from the log. -/
theorem C4_archive_keeps_ticket_active :
    (alookup (userTickets (archive_button exState1 5 50 false).1 5) 50
        = some { exTicket with closed := true }) ∧
    (archive_button exState1 5 50 false).1.ticket_logs = [] :=
  ⟨rfl, rfl⟩

/-- C4 amended: the store-level close mutation (shared by the manual close
and the reaper) removes the ticket from the active index and appends
exactly its summary record to the owner's closed-ticket log, so a
closed-via-close ticket is never in both; the Archive action instead only
sets the closed flag in place, leaving the ticket in the active index with
the owner's log untouched. -/
theorem C4_close_paths_amended (s : StoreState) (uid cid : Nat)
    (uts : List (Nat × Ticket)) (t : Ticket) (mk : Ticket → ClosedRecord)
    (hu : alookup s.active_tickets uid = some uts)
    (ht : alookup uts cid = some t) :
    (alookup (userTickets (close_store_update s uid cid mk) uid) cid = none ∧
      mk t ∈ (alookup (close_store_update s uid cid mk).ticket_logs uid).getD []) ∧
    ((archive_button s uid cid false).1
        = set_ticket s uid cid { t with closed := true } ∧
      (archive_button s uid cid false).1.ticket_logs = s.ticket_logs ∧
      alookup (userTickets (archive_button s uid cid false).1 uid) cid
        = some { t with closed := true }) := by
  refine ⟨⟨close_store_update_lookup_self _ _ _ _,
    close_store_update_logs_mem _ _ _ _ _ _ hu ht⟩, ?_⟩
  have harch : (archive_button s uid cid false).1
      = set_ticket s uid cid { t with closed := true } := by
    unfold archive_button
    simp [hu, ht, set_ticket, userTickets]
  refine ⟨harch, by rw [harch]; rfl, ?_⟩
  rw [harch, userTickets_set_ticket_self]
  exact alookup_aupdate_self _ _ _

/-- Witness for C4 (amended) on the one-ticket state, with the reaper's
summary record. -/
theorem C4_witness :
    (alookup (userTickets (close_store_update exState1 5 50
        (fun t0 => autoCloseRecord t0 99)) 5) 50 = none ∧
      autoCloseRecord exTicket 99
        ∈ (alookup (close_store_update exState1 5 50
            (fun t0 => autoCloseRecord t0 99)).ticket_logs 5).getD []) ∧
    ((archive_button exState1 5 50 false).1
        = set_ticket exState1 5 50 { exTicket with closed := true } ∧
      (archive_button exState1 5 50 false).1.ticket_logs = exState1.ticket_logs ∧
      alookup (userTickets (archive_button exState1 5 50 false).1 5) 50
        = some { exTicket with closed := true }) :=
  C4_close_paths_amended exState1 5 50 [(50, exTicket)] exTicket
    (fun t0 => autoCloseRecord t0 99) rfl rfl

/-! ## Claim C8 -/

/-- C8 counterexample: in the user-to-staff direction a channel-send
failure is reported to the sender, but NO log entry was recorded for the
attempted send - the append at line 858 only runs after a successful send
(only the last_activity update from line 832 survives), so the log does not
record attempted sends in this direction. -/
theorem C8_user_forward_send_failure_drops_entry :
    ((forward_to_channel exState1 5 "hello" [] 50 7 0 0 ⟨true, false, false⟩).2
        = [Effect.errorNotice 5 "Error sending your message"]) ∧
    (alookup (userTickets (forward_to_channel exState1 5 "hello" [] 50 7 0 0
        ⟨true, false, false⟩).1 5) 50
      = some { exTicket with last_activity := 7 }) :=
  ⟨rfl, rfl⟩

/-- C8 amended: the staff-to-user relay records the log entry before the
DM send, so a transport failure leaves the entry in place and reports an
error into the channel (attempted sends are logged); the user-to-staff
forward appends its entry only after the channel send succeeds, so a send
failure leaves no entry, while a failure in the post-send reaction calls
does leave the entry in place. -/
theorem C8_forwarding_log_amended (s : StoreState) (author : Nat)
    (content : String) (atts : List String) (ch now cmid umid uid : Nat)
    (uts : List (Nat × Ticket)) (t : Ticket)
    (hu : alookup s.active_tickets uid = some uts)
    (ht : alookup uts ch = some t)
    (honly : ∀ p ∈ s.active_tickets, alookup p.2 ch = none ∨ p.1 = uid) :
    (t.closed = false →
      (on_message_staff s ch author content atts now true).1
        = set_ticket s uid ch
            { t with last_activity := now, messages := t.messages ++ [⟨author, content, now, atts, none, none⟩] } ∧
      (on_message_staff s ch author content atts now true).2
        = [Effect.errorNotice ch "Error sending message to user"]) ∧
    ((forward_to_channel s author content atts ch now cmid umid ⟨true, false, false⟩).1
        = set_ticket s uid ch { t with last_activity := now } ∧
      (forward_to_channel s author content atts ch now cmid umid ⟨true, false, false⟩).2
        = [Effect.errorNotice author "Error sending your message"]) ∧
    ((forward_to_channel s author content atts ch now cmid umid ⟨false, true, false⟩).1
        = set_ticket (set_ticket s uid ch { t with last_activity := now }) uid ch
            { t with last_activity := now, messages := t.messages ++ [⟨author, content, now, atts, some cmid, some umid⟩] } ∧
      Effect.errorNotice author "Error sending your message"
        ∈ (forward_to_channel s author content atts ch now cmid umid ⟨false, true, false⟩).2) := by
  have hfind : find_ticket_by_channel s.active_tickets ch = some (uid, t) :=
    find_ticket_of_alookup s.active_tickets ch uid uts t hu ht honly
  refine ⟨?_, ?_, ?_⟩
  · intro hopen
    have hfo : find_open_ticket_by_channel s.active_tickets ch = some (uid, t) :=
      find_open_of_alookup s.active_tickets ch uid uts t hu ht hopen honly
    unfold on_message_staff
    rw [hfo]
    exact ⟨rfl, rfl⟩
  · unfold forward_to_channel
    rw [hfind]
    exact ⟨rfl, rfl⟩
  · unfold forward_to_channel
    rw [hfind]
    refine ⟨rfl, ?_⟩
    exact List.mem_cons_of_mem _ (List.mem_cons_self _ _)

/-- Witness for C8 (amended): staff relay with DM failure keeps the entry;
user forward with a post-send reaction failure reports the error. -/
theorem C8_witness :
    ((on_message_staff exState1 50 30 "hi" [] 8 true).1
        = set_ticket exState1 5 50
            { exTicket with last_activity := 8, messages := exTicket.messages ++ [⟨30, "hi", 8, [], none, none⟩] } ∧
      (on_message_staff exState1 50 30 "hi" [] 8 true).2
        = [Effect.errorNotice 50 "Error sending message to user"]) ∧
    Effect.errorNotice 30 "Error sending your message"
      ∈ (forward_to_channel exState1 30 "hi" [] 50 8 1 2 ⟨false, true, false⟩).2 :=
  ⟨(C8_forwarding_log_amended exState1 30 "hi" [] 50 8 1 2 5 [(50, exTicket)] exTicket
      rfl rfl (by decide)).1 rfl,
   ((C8_forwarding_log_amended exState1 30 "hi" [] 50 8 1 2 5 [(50, exTicket)] exTicket
      rfl rfl (by decide)).2.2).2⟩

/-! ## Claim C6: lemmas about one reaper sweep -/

theorem close_store_update_lookup_ne_channel (s : StoreState) (uid cid : Nat)
    (mk : Ticket → ClosedRecord) (c : Nat) (hc : c ≠ cid) :
    alookup (userTickets (close_store_update s uid cid mk) uid) c
      = alookup (userTickets s uid) c := by
  rcases hu : alookup s.active_tickets uid with _ | uts
  · rw [close_store_update_eq_self s uid cid mk (by simp [userTickets, hu, alookup])]
  · rcases ht : alookup uts cid with _ | t
    · rw [close_store_update_eq_self s uid cid mk
        (by rw [userTickets_of_alookup s uid uts hu]; exact ht)]
    · rw [close_store_update_eq s uid cid mk uts t hu ht]
      by_cases hre : (aerase uts cid).isEmpty
      · have hre' : aerase uts cid = [] := by simpa using hre
        have hnone : alookup uts c = none := by
          rw [← alookup_aerase_ne uts cid c hc, hre']
          rfl
        simp [userTickets, hre', alookup_aerase_self, alookup, hu, hnone]
      · have hre'' : ¬ aerase uts cid = [] := by simpa using hre
        simp [userTickets, hre'', alookup_aupdate_self, alookup_aerase_ne _ _ _ hc, hu]

theorem auto_close_one_preserves_absent (names : Nat → String)
    (history : Nat → List RawMessage) (f : SweepFaults) (now : Nat)
    (s : StoreState) (uid cid p1 p2 : Nat)
    (h : alookup (userTickets s uid) cid = none) :
    alookup (userTickets (auto_close_one names history f now s p1 p2).1 uid) cid = none := by
  rcases auto_close_one_state names history f now s p1 p2 with h1 | h1 <;> rw [h1]
  · exact h
  · exact close_store_update_lookup_none s p1 p2 _ uid cid h

theorem auto_close_one_logs_mono (names : Nat → String)
    (history : Nat → List RawMessage) (f : SweepFaults) (now : Nat)
    (s : StoreState) (uid p1 p2 : Nat) (r : ClosedRecord)
    (h : r ∈ (alookup s.ticket_logs uid).getD []) :
    r ∈ (alookup (auto_close_one names history f now s p1 p2).1.ticket_logs uid).getD [] := by
  rcases auto_close_one_state names history f now s p1 p2 with h1 | h1 <;> rw [h1]
  · exact h
  · exact close_store_update_logs_mono _ _ _ _ _ _ h

theorem auto_close_one_preserves_found (names : Nat → String)
    (history : Nat → List RawMessage) (f : SweepFaults) (now : Nat)
    (s : StoreState) (uid cid : Nat) (t : Ticket) (p1 p2 : Nat)
    (hne : ¬(p1 = uid ∧ p2 = cid))
    (h : alookup (userTickets s uid) cid = some t) :
    alookup (userTickets (auto_close_one names history f now s p1 p2).1 uid) cid = some t := by
  rcases auto_close_one_state names history f now s p1 p2 with h1 | h1 <;> rw [h1]
  · exact h
  · by_cases hp : p1 = uid
    · subst hp
      have hc : cid ≠ p2 := fun hh => hne ⟨rfl, hh.symm⟩
      rw [close_store_update_lookup_ne_channel _ _ _ _ _ hc]
      exact h
    · rw [close_store_update_userTickets_ne _ _ _ _ _ (fun hh => hp hh.symm)]
      exact h

theorem auto_close_one_closes (names : Nat → String)
    (history : Nat → List RawMessage) (f : SweepFaults) (now : Nat)
    (s : StoreState) (uid cid : Nat) (uts : List (Nat × Ticket)) (t : Ticket)
    (hu : alookup s.active_tickets uid = some uts)
    (ht : alookup uts cid = some t)
    (hpre : f.pre cid = false) :
    (auto_close_one names history f now s uid cid).1 =
      close_store_update s uid cid (fun t0 => autoCloseRecord t0 now) ∧
    Effect.madeTranscript cid
        (create_transcript t.channel_name (names uid) uid now (history cid))
      ∈ (auto_close_one names history f now s uid cid).2 := by
  unfold auto_close_one
  simp [hu, ht, hpre]

theorem sweep_step_SweepDone (names : Nat → String)
    (history : Nat → List RawMessage) (f : SweepFaults) (now uid cid : Nat)
    (t : Ticket) (x : StoreState × List Effect) (p : Nat × Nat)
    (h : SweepDone uid cid t now names history x) :
    SweepDone uid cid t now names history
      ((auto_close_one names history f now x.1 p.1 p.2).1,
        x.2 ++ (auto_close_one names history f now x.1 p.1 p.2).2) := by
  obtain ⟨hN, hR, hE⟩ := h
  exact ⟨auto_close_one_preserves_absent names history f now x.1 uid cid p.1 p.2 hN,
    auto_close_one_logs_mono names history f now x.1 uid p.1 p.2 _ hR,
    List.mem_append_left _ hE⟩

theorem sweep_step_target_done (names : Nat → String)
    (history : Nat → List RawMessage) (f : SweepFaults) (now uid cid : Nat)
    (t : Ticket) (hpre : f.pre cid = false) (x : StoreState × List Effect)
    (h : SweepInv uid cid t now names history x) :
    SweepDone uid cid t now names history
      ((auto_close_one names history f now x.1 uid cid).1,
        x.2 ++ (auto_close_one names history f now x.1 uid cid).2) := by
  rcases h with hL | hD
  · rcases hux : alookup x.1.active_tickets uid with _ | uts
    · exfalso
      rw [userTickets, hux] at hL
      simp [alookup] at hL
    · have htx : alookup uts cid = some t := by
        rw [userTickets_of_alookup x.1 uid uts hux] at hL
        exact hL
      have hcl := auto_close_one_closes names history f now x.1 uid cid uts t hux htx hpre
      refine ⟨?_, ?_, List.mem_append_right _ hcl.2⟩
      · rw [hcl.1]
        exact close_store_update_lookup_self _ _ _ _
      · rw [hcl.1]
        exact close_store_update_logs_mem x.1 uid cid _ uts t hux htx
  · exact sweep_step_SweepDone names history f now uid cid t x (uid, cid) hD

theorem sweep_step_SweepInv (names : Nat → String)
    (history : Nat → List RawMessage) (f : SweepFaults) (now uid cid : Nat)
    (t : Ticket) (hpre : f.pre cid = false) (x : StoreState × List Effect)
    (p : Nat × Nat) (h : SweepInv uid cid t now names history x) :
    SweepInv uid cid t now names history
      ((auto_close_one names history f now x.1 p.1 p.2).1,
        x.2 ++ (auto_close_one names history f now x.1 p.1 p.2).2) := by
  by_cases hp : p.1 = uid ∧ p.2 = cid
  · right
    obtain ⟨hp1, hp2⟩ := hp
    rw [hp1, hp2]
    exact sweep_step_target_done names history f now uid cid t hpre x h
  · rcases h with hL | hD
    · left
      exact auto_close_one_preserves_found names history f now x.1 uid cid t p.1 p.2 hp hL
    · right
      exact sweep_step_SweepDone names history f now uid cid t x p hD

theorem sweep_go_SweepDone (names : Nat → String)
    (history : Nat → List RawMessage) (f : SweepFaults) (now uid cid : Nat)
    (t : Ticket) :
    ∀ (l : List (Nat × Nat)) (x : StoreState × List Effect),
      SweepDone uid cid t now names history x →
      SweepDone uid cid t now names history (sweep_go names history f now l x) := by
  intro l
  induction l with
  | nil => intro x h; exact h
  | cons p rest ih =>
    intro x h
    simp only [sweep_go]
    exact ih _ (sweep_step_SweepDone names history f now uid cid t x p h)

theorem sweep_go_reaps (names : Nat → String)
    (history : Nat → List RawMessage) (f : SweepFaults) (now uid cid : Nat)
    (t : Ticket) (hpre : f.pre cid = false) :
    ∀ (l : List (Nat × Nat)) (x : StoreState × List Effect),
      (uid, cid) ∈ l →
      SweepInv uid cid t now names history x →
      SweepDone uid cid t now names history (sweep_go names history f now l x) := by
  intro l
  induction l with
  | nil => intro x h; simp at h
  | cons p rest ih =>
    intro x hmem hinv
    simp only [sweep_go]
    rcases List.mem_cons.mp hmem with he | hm
    · apply sweep_go_SweepDone
      have hpe : p = (uid, cid) := he.symm
      subst hpe
      exact sweep_step_target_done names history f now uid cid t hpre x hinv
    · exact ih _ hm (sweep_step_SweepInv names history f now uid cid t hpre x p hinv)

theorem sweep_go_untouched (names : Nat → String)
    (history : Nat → List RawMessage) (f : SweepFaults) (now uid cid : Nat)
    (t : Ticket) :
    ∀ (l : List (Nat × Nat)) (x : StoreState × List Effect),
      (∀ p ∈ l, ¬(p.1 = uid ∧ p.2 = cid)) →
      alookup (userTickets x.1 uid) cid = some t →
      alookup (userTickets (sweep_go names history f now l x).1 uid) cid = some t := by
  intro l
  induction l with
  | nil => intro x _ h; exact h
  | cons p rest ih =>
    intro x hl h
    simp only [sweep_go]
    exact ih _ (fun q hq => hl q (List.mem_cons_of_mem _ hq))
      (auto_close_one_preserves_found names history f now x.1 uid cid t p.1 p.2
        (hl p (List.mem_cons_self _ _)) h)

theorem mem_collect_inactive (s : StoreState) (now uid cid : Nat)
    (uts : List (Nat × Ticket)) (t : Ticket)
    (hu : alookup s.active_tickets uid = some uts)
    (ht : alookup uts cid = some t)
    (hclosed : t.closed = false) (hinact : ticketInactive now t = true) :
    (uid, cid) ∈ collect_inactive s now := by
  unfold collect_inactive
  rw [List.mem_flatMap]
  refine ⟨(uid, uts), alookup_mem _ _ _ hu, ?_⟩
  rw [List.mem_map]
  refine ⟨(cid, t), ?_, rfl⟩
  rw [List.mem_filter]
  exact ⟨alookup_mem _ _ _ ht, by simp [hclosed, hinact]⟩

theorem not_mem_collect_inactive (s : StoreState) (now uid cid : Nat)
    (uts : List (Nat × Ticket)) (t : Ticket)
    (hndO : keysNodup s.active_tickets) (hndU : keysNodup uts)
    (hu : alookup s.active_tickets uid = some uts)
    (ht : alookup uts cid = some t)
    (hstay : t.closed = true ∨ ticketInactive now t = false) :
    (uid, cid) ∉ collect_inactive s now := by
  intro hmem
  unfold collect_inactive at hmem
  rw [List.mem_flatMap] at hmem
  obtain ⟨p, hpmem, hmm⟩ := hmem
  obtain ⟨p1, p2⟩ := p
  rw [List.mem_map] at hmm
  obtain ⟨q, hq, hqe⟩ := hmm
  obtain ⟨q1, q2⟩ := q
  simp only [Prod.mk.injEq] at hqe
  obtain ⟨hp1, hq1⟩ := hqe
  rw [List.mem_filter] at hq
  have hpu : alookup s.active_tickets p1 = some p2 :=
    alookup_of_mem_nodup _ _ _ hndO hpmem
  rw [hp1, hu] at hpu
  injection hpu with hp2
  subst hp2
  have hqu : alookup uts q1 = some q2 := alookup_of_mem_nodup _ _ _ hndU hq.1
  rw [hq1, ht] at hqu
  injection hqu with hq2
  subst hq2
  rcases hstay with hs | hs <;> simp [hs] at hq

/-- C6: one pass of the reaper loop.  A non-closed ticket whose inactivity
meets or exceeds the AUTO_CLOSE_TIME threshold (in hours) is closed by the
sweep: its transcript is generated, it is removed from the active index,
and a summary record whose closed_by field is the system sentinel
"auto-close" is appended to its owner's closed-ticket log; a ticket that is
flagged closed or below the threshold is left untouched with its data
intact. -/
theorem C6_reaper_auto_close (s : StoreState) (now uid cid : Nat)
    (uts : List (Nat × Ticket)) (t : Ticket) (names : Nat → String)
    (history : Nat → List RawMessage) (f : SweepFaults)
    (hndO : keysNodup s.active_tickets) (hndU : keysNodup uts)
    (hu : alookup s.active_tickets uid = some uts)
    (ht : alookup uts cid = some t)
    (hpre : f.pre cid = false) :
    (t.closed = false → ticketInactive now t = true →
      alookup (userTickets (auto_close_tickets names history f now s).1 uid) cid = none ∧
      autoCloseRecord t now
        ∈ (alookup (auto_close_tickets names history f now s).1.ticket_logs uid).getD [] ∧
      Effect.madeTranscript cid
          (create_transcript t.channel_name (names uid) uid now (history cid))
        ∈ (auto_close_tickets names history f now s).2) ∧
    (t.closed = true ∨ ticketInactive now t = false →
      alookup (userTickets (auto_close_tickets names history f now s).1 uid) cid = some t) := by
  have hinit : SweepInv uid cid t now names history (s, ([] : List Effect)) :=
    Or.inl (by rw [userTickets_of_alookup s uid uts hu]; exact ht)
  constructor
  · intro hclosed hinact
    exact sweep_go_reaps names history f now uid cid t hpre _ _
      (mem_collect_inactive s now uid cid uts t hu ht hclosed hinact) hinit
  · intro hstay
    have hnmem := not_mem_collect_inactive s now uid cid uts t hndO hndU hu ht hstay
    refine sweep_go_untouched names history f now uid cid t _ _ ?_
      (by rw [userTickets_of_alookup s uid uts hu]; exact ht)
    intro p hp hpe
    apply hnmem
    have hpq : p = (uid, cid) := Prod.ext hpe.1 hpe.2
    rw [← hpq]
    exact hp

/-- Witness for C6: the single ticket of exState1 has been idle 200000
seconds (over 55 hours, past the 48-hour threshold), and one fault-free
sweep reaps it. -/
theorem C6_witness :
    alookup (userTickets (auto_close_tickets (fun _ => "user") (fun _ => [])
        SweepFaults.none' 200000 exState1).1 5) 50 = none ∧
    autoCloseRecord exTicket 200000
      ∈ (alookup (auto_close_tickets (fun _ => "user") (fun _ => [])
          SweepFaults.none' 200000 exState1).1.ticket_logs 5).getD [] ∧
    Effect.madeTranscript 50 (create_transcript exTicket.channel_name "user" 5 200000 [])
      ∈ (auto_close_tickets (fun _ => "user") (fun _ => [])
          SweepFaults.none' 200000 exState1).2 :=
  (C6_reaper_auto_close exState1 200000 5 50 [(50, exTicket)] exTicket
    (fun _ => "user") (fun _ => []) SweepFaults.none'
    (by unfold keysNodup; decide) (by unfold keysNodup; decide) rfl rfl rfl).1
    rfl (by decide)

end Modmail
